import Mathlib

/-! bosh-init: the deployment config service and the package installer.

A shallow embedding of

* `config/file_system_deployment_config_service.go`
  (`Load`, `Save`, `initDefaults`, `Exists`, `SetConfigPath`, `Path`), and
* `install/package_installer.go` (`Install`, `cleanUpBlob`).

Both components talk to collaborators through Go interfaces (file system, UUID
generator, logger, compiled package repo, blobstore, extractor).  A collaborator
is modelled as an arbitrary deterministic state machine over a shared state type
`σ`: every method takes the current state and returns its Go results together
with the next state.  Each call a component makes is also appended, in order, to
a trace of events, so that statements such as "`CleanUp` is invoked exactly once"
or "no write is performed" are statements about that trace.

Go's `error` is `Option (Error A)`: `none` is `nil`.  The logger returns nothing
to its caller, so logger calls are recorded in the trace only.  A Go `panic` is
the `Outcome.panicked` result.  The DirectorID is a Go string, that is a sequence
of bytes, which need not be valid UTF-8.  The functions of `encoding/json` are a
parameter of `Load` and `Save`; closed examples run on a codec double.
-/

namespace bosh

/-- Byte slice (`[]byte`). -/
abbrev Bytes := List (Fin 256)

/-- Go string (`string`): a sequence of bytes, valid UTF-8 or not.  It is the type
of the strings that pass through the JSON codec (the DirectorID and the
identifier the generator returns); paths, tags and format strings, which are only
passed on, are `String`. -/
abbrev GoString := List (Fin 256)

/-- The bytes of a string of ASCII characters. -/
def ascii (s : String) : List (Fin 256) :=
  s.toList.map (fun c => Fin.ofNat c.toNat)

/-- Error values.  `external` stands for an error made by a collaborator; the
other constructors are the results of `bosherr.New`, `bosherr.WrapError` and
`bosherr.WrapErrorf`, which keep the cause, the format string and the format
arguments (of type `A`). -/
inductive Error (A : Type) where
  | external (msg : String) : Error A
  | new (format : String) (args : List A) : Error A
  | wrapError (cause : Error A) (format : String) (args : List A) : Error A
  | wrapErrorf (cause : Error A) (format : String) (args : List A) : Error A
deriving DecidableEq

namespace bosherr

/-- The call `bosherr.New(format, args...)`. -/
def New {A : Type} (format : String) (args : List A) : Error A :=
  Error.new format args

/-- The call `bosherr.WrapError(err, format, args...)`. -/
def WrapError {A : Type} (err : Error A) (format : String) (args : List A) : Error A :=
  Error.wrapError err format args

/-- The call `bosherr.WrapErrorf(err, format, args...)`. -/
def WrapErrorf {A : Type} (err : Error A) (format : String) (args : List A) : Error A :=
  Error.wrapErrorf err format args

end bosherr

/-- Result of running a Go function: it returns, or it panics. -/
inductive Outcome (α : Type) where
  | returned (value : α) : Outcome α
  | panicked (msg : String) : Outcome α
deriving DecidableEq

/-- The collaborators' shared state together with the calls made so far. -/
structure World (σ E : Type) where
  state : σ
  trace : List E
deriving DecidableEq

/-- The constant `os.ModePerm` (`0777`). -/
def osModePerm : Nat := 0o777

/-- The methods of `boshsys.FileSystem` that the two components call. -/
structure FileSystem (σ A : Type) where
  FileExists : String → σ → Bool × σ
  ReadFile : String → σ → (Bytes × Option (Error A)) × σ
  WriteFile : String → Bytes → σ → Option (Error A) × σ
  MkdirAll : String → Nat → σ → Option (Error A) × σ

/-- The interface `boshuuid.Generator`. -/
structure Generator (σ A : Type) where
  Generate : σ → (GoString × Option (Error A)) × σ

/-! ## Package `config` -/

namespace config

/-- Modelled from the spec: the declaration of `DeploymentFile` is not part of
the two source files; section 6 of the spec gives it one recognised field,
`DirectorID` (a string).  The default value is Go's zero value
`DeploymentFile{}`. -/
structure DeploymentFile where
  DirectorID : GoString := []
deriving DecidableEq

/-- Values passed as format arguments to the logger and to `bosherr`. -/
inductive Arg where
  | str (s : String) : Arg
  | bytes (b : Bytes) : Arg
  | deploymentFile (df : DeploymentFile) : Arg
deriving DecidableEq

/-- Calls made by the config service, in the order they are made. -/
inductive Event where
  | fileExists (path : String) : Event
  | readFile (path : String) : Event
  | writeFile (path : String) (content : Bytes) : Event
  | generate : Event
  | logDebug (tag : String) (format : String) (args : List Arg) : Event
deriving DecidableEq

/-- The two functions of Go's `encoding/json` that the service calls, at type
`DeploymentFile`.  `Unmarshal data v` returns the updated `*v` and the error;
`MarshalIndent v prefix indent` returns the bytes and the error. -/
structure JSON where
  Unmarshal : Bytes → DeploymentFile → DeploymentFile × Option (Error Arg)
  MarshalIndent : DeploymentFile → String → String → Bytes × Option (Error Arg)

/-- The struct `fileSystemDeploymentConfigService`.  The `logger` field is the
trace of the world. -/
structure fileSystemDeploymentConfigService (σ : Type) where
  manifestPath : String := ""
  configPath : String := ""
  fs : FileSystem σ Arg
  uuidGenerator : Generator σ Arg
  logTag : String

variable {σ : Type}

/-- The constructor `NewFileSystemDeploymentConfigService`. -/
def NewFileSystemDeploymentConfigService (fs : FileSystem σ Arg)
    (uuidGenerator : Generator σ Arg) : fileSystemDeploymentConfigService σ :=
  { fs := fs, uuidGenerator := uuidGenerator, logTag := "config" }

/-- The call `s.logger.Debug(tag, format, args...)`. -/
def loggerDebug (tag format : String) (args : List Arg) (w : World σ Event) :
    World σ Event :=
  { w with trace := w.trace ++ [Event.logDebug tag format args] }

/-- The call `s.fs.FileExists(path)`. -/
def fsFileExists (fs : FileSystem σ Arg) (path : String) (w : World σ Event) :
    Bool × World σ Event :=
  ((fs.FileExists path w.state).1,
    { state := (fs.FileExists path w.state).2, trace := w.trace ++ [Event.fileExists path] })

/-- The call `s.fs.ReadFile(path)`. -/
def fsReadFile (fs : FileSystem σ Arg) (path : String) (w : World σ Event) :
    (Bytes × Option (Error Arg)) × World σ Event :=
  ((fs.ReadFile path w.state).1,
    { state := (fs.ReadFile path w.state).2, trace := w.trace ++ [Event.readFile path] })

/-- The call `s.fs.WriteFile(path, content)`. -/
def fsWriteFile (fs : FileSystem σ Arg) (path : String) (content : Bytes)
    (w : World σ Event) : Option (Error Arg) × World σ Event :=
  ((fs.WriteFile path content w.state).1,
    { state := (fs.WriteFile path content w.state).2,
      trace := w.trace ++ [Event.writeFile path content] })

/-- The call `s.uuidGenerator.Generate()`. -/
def uuidGenerate (g : Generator σ Arg) (w : World σ Event) :
    (GoString × Option (Error Arg)) × World σ Event :=
  ((g.Generate w.state).1,
    { state := (g.Generate w.state).2, trace := w.trace ++ [Event.generate] })

/-- The method `Path`. -/
def Path (s : fileSystemDeploymentConfigService σ) : String :=
  s.configPath

/-- The method `Exists`. -/
def Exists (s : fileSystemDeploymentConfigService σ) (w : World σ Event) :
    Bool × World σ Event :=
  fsFileExists s.fs s.configPath w

/-- The method `SetConfigPath`. -/
def SetConfigPath (s : fileSystemDeploymentConfigService σ) (path : String) :
    fileSystemDeploymentConfigService σ :=
  { s with configPath := path }

/-- The method `Save`. -/
def Save (json : JSON) (s : fileSystemDeploymentConfigService σ)
    (deploymentFile : DeploymentFile) (w : World σ Event) :
    Outcome (Option (Error Arg)) × World σ Event :=
  if s.configPath = "" then
    (Outcome.panicked "configPath not yet set!", w)
  else
    let w1 := loggerDebug s.logTag "Saving deployment config %#v"
      [Arg.deploymentFile deploymentFile] w
    match json.MarshalIndent deploymentFile "" "    " with
    | (_, some err) =>
      (Outcome.returned
        (some (bosherr.WrapError err "Marshalling deployment config into JSON" [])), w1)
    | (jsonContent, none) =>
      match fsWriteFile s.fs s.configPath jsonContent w1 with
      | (some err, w2) =>
        (Outcome.returned
          (some (bosherr.WrapErrorf err "Writing deployment config file '%s'"
            [Arg.str s.configPath])), w2)
      | (none, w2) => (Outcome.returned none, w2)

/-- The method `initDefaults`.  The Go method mutates `*deploymentFile`; here the
updated value is returned next to the error. -/
def initDefaults (json : JSON) (s : fileSystemDeploymentConfigService σ)
    (deploymentFile : DeploymentFile) (w : World σ Event) :
    Outcome (DeploymentFile × Option (Error Arg)) × World σ Event :=
  if deploymentFile.DirectorID = [] then
    match uuidGenerate s.uuidGenerator w with
    | ((_, some err), w1) =>
      (Outcome.returned (deploymentFile, some (bosherr.WrapError err "Generating DirectorID" [])),
        w1)
    | ((uuid, none), w1) =>
      let deploymentFile1 : DeploymentFile := { deploymentFile with DirectorID := uuid }
      match Save json s deploymentFile1 w1 with
      | (Outcome.panicked msg, w2) => (Outcome.panicked msg, w2)
      | (Outcome.returned (some err), w2) =>
        (Outcome.returned
          (deploymentFile1, some (bosherr.WrapError err "Saving deployment config" [])), w2)
      | (Outcome.returned none, w2) => (Outcome.returned (deploymentFile1, none), w2)
  else
    (Outcome.returned (deploymentFile, none), w)

/-- The tail of `Load` from the call of `initDefaults` on. -/
def loadDefaults (json : JSON) (s : fileSystemDeploymentConfigService σ)
    (deploymentFile : DeploymentFile) (w : World σ Event) :
    Outcome (DeploymentFile × Option (Error Arg)) × World σ Event :=
  match initDefaults json s deploymentFile w with
  | (Outcome.panicked msg, w1) => (Outcome.panicked msg, w1)
  | (Outcome.returned (_, some err), w1) =>
    (Outcome.returned
      (({} : DeploymentFile),
        some (bosherr.WrapErrorf err "Initializing deployment config defaults" [])), w1)
  | (Outcome.returned (deploymentFile1, none), w1) =>
    (Outcome.returned (deploymentFile1, none), w1)

/-- The method `Load`. -/
def Load (json : JSON) (s : fileSystemDeploymentConfigService σ) (w : World σ Event) :
    Outcome (DeploymentFile × Option (Error Arg)) × World σ Event :=
  if s.configPath = "" then
    (Outcome.panicked "configPath not yet set!", w)
  else
    let w1 := loggerDebug s.logTag "Loading deployment config: %s" [Arg.str s.configPath] w
    let deploymentFile : DeploymentFile := {}
    match fsFileExists s.fs s.configPath w1 with
    | (true, w2) =>
      match fsReadFile s.fs s.configPath w2 with
      | ((_, some err), w3) =>
        (Outcome.returned
          (({} : DeploymentFile),
            some (bosherr.WrapErrorf err "Reading deployment config file '%s'"
              [Arg.str s.configPath])), w3)
      | ((deploymentFileContents, none), w3) =>
        let w4 := loggerDebug s.logTag "Deployment File Contents %#s"
          [Arg.bytes deploymentFileContents] w3
        match json.Unmarshal deploymentFileContents deploymentFile with
        | (_, some err) =>
          (Outcome.returned
            (({} : DeploymentFile),
              some (bosherr.WrapErrorf err "Unmarshalling deployment config file '%s'"
                [Arg.str s.configPath])), w4)
        | (deploymentFile1, none) => loadDefaults json s deploymentFile1 w4
    | (false, w2) => loadDefaults json s deploymentFile w2

/-- The calls recorded between the world `w` and the later world `w1`. -/
def newCalls (w w1 : World σ Event) : List Event :=
  w1.trace.drop w.trace.length

/-- The contract of a file system, relative to `content`, which reads off a state
the content of each file (`none`: no such file): `FileExists` answers whether the
file has content, `FileExists` and `ReadFile` change no content, a `ReadFile`
that succeeds returns the content, and a `WriteFile` that succeeds leaves the
written bytes as the content of the file. -/
structure LawfulFileSystem (fs : FileSystem σ Arg) (content : σ → String → Option Bytes) :
    Prop where
  fileExists_eq : ∀ path s, (fs.FileExists path s).1 = (content s path).isSome
  fileExists_frame : ∀ path s, content (fs.FileExists path s).2 = content s
  readFile_frame : ∀ path s, content (fs.ReadFile path s).2 = content s
  readFile_ok : ∀ path s, (fs.ReadFile path s).1.2 = none →
    content s path = some (fs.ReadFile path s).1.1
  writeFile_ok : ∀ path b s, (fs.WriteFile path b s).1 = none →
    content (fs.WriteFile path b s).2 path = some b

/-- The DirectorID of the persisted document: the file at `path` has content and
the content decodes, without error, to a `DeploymentFile` with this DirectorID. -/
def persistedDirectorID (json : JSON) (content : σ → String → Option Bytes) (path : String)
    (s : σ) : Option GoString :=
  match content s path with
  | none => none
  | some b =>
    match json.Unmarshal b {} with
    | (df, none) => some df.DirectorID
    | (_, some _) => none

/-- An operation of the service, as a caller issues it. -/
inductive Op where
  | load : Op
  | save (deploymentFile : DeploymentFile) : Op

/-- The world after one operation of the service. -/
def step (json : JSON) (s : fileSystemDeploymentConfigService σ) (w : World σ Event) :
    Op → World σ Event
  | Op.load => (Load json s w).2
  | Op.save deploymentFile => (Save json s deploymentFile w).2

/-- The world after a sequence of operations of the service, first to last. -/
def run (json : JSON) (s : fileSystemDeploymentConfigService σ) (w : World σ Event)
    (ops : List Op) : World σ Event :=
  ops.foldl (step json s) w

/-! ### A test double for the config service's collaborators -/

/-- State of the test double: the files (the newest entry of a path is its
content), the identifiers the generator still hands out, and the errors the next
reads and writes are to fail with. -/
structure FakeDisk where
  files : List (String × Bytes) := []
  uuids : List GoString := []
  readError : Option (Error Arg) := none
  writeError : Option (Error Arg) := none
deriving DecidableEq

/-- The content of a file of the test double. -/
def fakeContent (s : FakeDisk) (path : String) : Option Bytes :=
  s.files.lookup path

/-- File system double. -/
def fakeFS : FileSystem FakeDisk Arg where
  FileExists := fun path s => ((fakeContent s path).isSome, s)
  ReadFile := fun path s =>
    match s.readError with
    | some e => (([], some e), s)
    | none =>
      match fakeContent s path with
      | some b => ((b, none), s)
      | none => (([], some (Error.external "no such file")), s)
  WriteFile := fun path b s =>
    match s.writeError with
    | some e => (some e, s)
    | none => (none, { s with files := (path, b) :: s.files })
  MkdirAll := fun _ _ s => (none, s)

/-- Generator double: it hands out the identifiers of the state, in order, and
fails when there is none left. -/
def fakeGenerator : Generator FakeDisk Arg where
  Generate := fun s =>
    match s.uuids with
    | [] => (([], some (Error.external "no identifier left")), s)
    | u :: rest => ((u, none), { s with uuids := rest })

/-- Whether `b` is a continuation byte of UTF-8 (`0x80` to `0xBF`). -/
def isContinuation (b : Fin 256) : Bool :=
  decide (0x80 ≤ b.val ∧ b.val ≤ 0xBF)

/-- The length of the well-formed UTF-8 sequence of two, three or four bytes at
the head of `s`, and 0 when there is none there (overlong forms, surrogates and
values above U+10FFFF are not well formed). -/
def utf8Length : Bytes → Nat
  | a :: b :: rest =>
    if 0xC2 ≤ a.val ∧ a.val ≤ 0xDF ∧ isContinuation b = true then 2
    else
      match rest with
      | c :: rest2 =>
        if ((a.val = 0xE0 ∧ 0xA0 ≤ b.val ∧ b.val ≤ 0xBF) ∨
            (0xE1 ≤ a.val ∧ a.val ≤ 0xEC ∧ isContinuation b = true) ∨
            (a.val = 0xED ∧ 0x80 ≤ b.val ∧ b.val ≤ 0x9F) ∨
            (0xEE ≤ a.val ∧ a.val ≤ 0xEF ∧ isContinuation b = true)) ∧
            isContinuation c = true then 3
        else
          match rest2 with
          | d :: _ =>
            if ((a.val = 0xF0 ∧ 0x90 ≤ b.val ∧ b.val ≤ 0xBF) ∨
                (0xF1 ≤ a.val ∧ a.val ≤ 0xF3 ∧ isContinuation b = true) ∨
                (a.val = 0xF4 ∧ 0x80 ≤ b.val ∧ b.val ≤ 0x8F)) ∧
                isContinuation c = true ∧ isContinuation d = true then 4
            else 0
          | [] => 0
      | [] => 0
  | _ => 0

/-- The lower-case hexadecimal digit of `n`, for `n` below 16. -/
def hexDigit (n : Nat) : Fin 256 :=
  Fin.ofNat (if n < 10 then 48 + n else 87 + n)

/-- How the encoder writes a byte below `0x80` inside a JSON string: the quote and
the backslash behind a backslash, the control characters and `<`, `>`, `&` as an
escape, any other byte as it is. -/
def escapeByte (a : Fin 256) : Bytes :=
  if a.val = 0x22 then [0x5C, 0x22]
  else if a.val = 0x5C then [0x5C, 0x5C]
  else if a.val = 0x08 then [0x5C, 0x62]
  else if a.val = 0x0C then [0x5C, 0x66]
  else if a.val = 0x0A then [0x5C, 0x6E]
  else if a.val = 0x0D then [0x5C, 0x72]
  else if a.val = 0x09 then [0x5C, 0x74]
  else if a.val < 0x20 ∨ a.val = 0x3C ∨ a.val = 0x3E ∨ a.val = 0x26 then
    [0x5C, 0x75, 0x30, 0x30, hexDigit (a.val / 16), hexDigit (a.val % 16)]
  else [a]

/-- The content of the JSON string the encoder writes for the Go string `s`; `fuel`
bounds the number of steps, each of which consumes a byte or more.  A byte from
`0x80` on that starts no well-formed UTF-8 sequence is written as the escape of
the replacement character U+FFFD (a backslash, then `ufffd`); U+2028 and U+2029
are written as escapes; any other well-formed sequence is copied. -/
def escapeAux : Nat → Bytes → Bytes
  | 0, _ => []
  | _ + 1, [] => []
  | fuel + 1, a :: rest =>
    if a.val < 0x80 then escapeByte a ++ escapeAux fuel rest
    else if utf8Length (a :: rest) = 0 then
      [0x5C, 0x75, 0x66, 0x66, 0x66, 0x64] ++ escapeAux fuel rest
    else if (a :: rest).take 3 = [0xE2, 0x80, 0xA8] then
      [0x5C, 0x75, 0x32, 0x30, 0x32, 0x38] ++ escapeAux fuel (rest.drop 2)
    else if (a :: rest).take 3 = [0xE2, 0x80, 0xA9] then
      [0x5C, 0x75, 0x32, 0x30, 0x32, 0x39] ++ escapeAux fuel (rest.drop 2)
    else
      (a :: rest).take (utf8Length (a :: rest)) ++
        escapeAux fuel ((a :: rest).drop (utf8Length (a :: rest)))

/-- The JSON string the encoder writes for the Go string `s`. -/
def quote (s : GoString) : Bytes :=
  0x22 :: escapeAux s.length s ++ [0x22]

/-- The input without its leading JSON white space. -/
def skipSpace (s : Bytes) : Bytes :=
  s.dropWhile (fun a => decide (a.val = 0x20 ∨ a.val = 0x0A ∨ a.val = 0x0D ∨ a.val = 0x09))

/-- The input after the bytes `p`, if it starts with them. -/
def expect : Bytes → Bytes → Option Bytes
  | [], s => some s
  | _ :: _, [] => none
  | p :: ps, a :: s => if p = a then expect ps s else none

/-- The value of a hexadecimal digit. -/
def hexValue (a : Fin 256) : Option Nat :=
  if 0x30 ≤ a.val ∧ a.val ≤ 0x39 then some (a.val - 0x30)
  else if 0x61 ≤ a.val ∧ a.val ≤ 0x66 then some (a.val - 0x61 + 10)
  else if 0x41 ≤ a.val ∧ a.val ≤ 0x46 then some (a.val - 0x41 + 10)
  else none

/-- The UTF-8 encoding of the code point `cp`. -/
def utf8Encode (cp : Nat) : Bytes :=
  if cp < 0x80 then [Fin.ofNat cp]
  else if cp < 0x800 then [Fin.ofNat (0xC0 + cp / 64), Fin.ofNat (0x80 + cp % 64)]
  else if cp < 0x10000 then
    [Fin.ofNat (0xE0 + cp / 4096), Fin.ofNat (0x80 + cp / 64 % 64), Fin.ofNat (0x80 + cp % 64)]
  else
    [Fin.ofNat (0xF0 + cp / 262144), Fin.ofNat (0x80 + cp / 4096 % 64),
      Fin.ofNat (0x80 + cp / 64 % 64), Fin.ofNat (0x80 + cp % 64)]

/-- The character a one-letter escape stands for. -/
def simpleEscape (e : Fin 256) : Option (Fin 256) :=
  if e.val = 0x22 then some 0x22
  else if e.val = 0x5C then some 0x5C
  else if e.val = 0x2F then some 0x2F
  else if e.val = 0x62 then some 0x08
  else if e.val = 0x66 then some 0x0C
  else if e.val = 0x6E then some 0x0A
  else if e.val = 0x72 then some 0x0D
  else if e.val = 0x74 then some 0x09
  else none

/-- The decoder on the content of a JSON string, the opening quote already read:
the Go string read so far is `acc`; the result is the Go string and the input
after the closing quote, or `none` on a syntax error.  A raw byte from `0x80` on
that starts no well-formed UTF-8 sequence is read as the replacement character
U+FFFD (the bytes `EF BF BD`). -/
def unquoteAux : Nat → Bytes → GoString → Option (GoString × Bytes)
  | 0, _, _ => none
  | _ + 1, [], _ => none
  | fuel + 1, a :: rest, acc =>
    if a.val = 0x22 then some (acc, rest)
    else if a.val = 0x5C then
      match rest with
      | [] => none
      | e :: rest1 =>
        if e.val = 0x75 then
          match rest1 with
          | h1 :: h2 :: h3 :: h4 :: rest2 =>
            match hexValue h1, hexValue h2, hexValue h3, hexValue h4 with
            | some v1, some v2, some v3, some v4 =>
              if 0xD800 ≤ v1 * 4096 + v2 * 256 + v3 * 16 + v4 ∧
                  v1 * 4096 + v2 * 256 + v3 * 16 + v4 ≤ 0xDFFF then none
              else unquoteAux fuel rest2 (acc ++ utf8Encode (v1 * 4096 + v2 * 256 + v3 * 16 + v4))
            | _, _, _, _ => none
          | _ => none
        else
          match simpleEscape e with
          | some c => unquoteAux fuel rest1 (acc ++ [c])
          | none => none
    else if a.val < 0x20 then none
    else if a.val < 0x80 then unquoteAux fuel rest (acc ++ [a])
    else if utf8Length (a :: rest) = 0 then unquoteAux fuel rest (acc ++ [0xEF, 0xBF, 0xBD])
    else
      unquoteAux fuel ((a :: rest).drop (utf8Length (a :: rest)))
        (acc ++ (a :: rest).take (utf8Length (a :: rest)))

/-- The decoder on a document: `none` on a syntax error, `some none` on the empty
object, `some (some id)` on an object whose one member is `DirectorID` with the
string value `id`. -/
def decodeDocument (data : Bytes) : Option (Option GoString) :=
  match expect [0x7B] (skipSpace data) with
  | none => none
  | some s1 =>
    match expect [0x7D] (skipSpace s1) with
    | some s2 => if skipSpace s2 = [] then some none else none
    | none =>
      match expect (ascii "\"DirectorID\"") (skipSpace s1) with
      | none => none
      | some s2 =>
        match expect [0x3A] (skipSpace s2) with
        | none => none
        | some s3 =>
          match expect [0x22] (skipSpace s3) with
          | none => none
          | some s4 =>
            match unquoteAux s4.length s4 [] with
            | none => none
            | some (id, s5) =>
              match expect [0x7D] (skipSpace s5) with
              | none => none
              | some s6 => if skipSpace s6 = [] then some (some id) else none

/-- Codec double, standing for `encoding/json` at type `DeploymentFile`.
`MarshalIndent` writes the object with the one member `DirectorID` on a line of
its own, the string value escaped as `escapeAux` says, and never fails.
`Unmarshal` reads the documents that consist of the one member `DirectorID` with a
string value, and the empty object, which leaves `v` as it is.  Any other
document is reported as a syntax error here, also those `encoding/json` accepts
(further members, another capitalisation of the key, `null`, escaped
surrogates). -/
def fakeJSON : JSON where
  Unmarshal := fun data v =>
    match decodeDocument data with
    | none => (v, some (Error.external "invalid character"))
    | some none => (v, none)
    | some (some id) => ({ v with DirectorID := id }, none)
  MarshalIndent := fun v pfx indent =>
    (ascii "\x7b\n" ++ ascii pfx ++ ascii indent ++ ascii "\"DirectorID\": " ++
      quote v.DirectorID ++ ascii "\n" ++ ascii pfx ++ ascii "\x7d", none)

/-- The document `MarshalIndent` writes, with the indent of `Save`, for a
DirectorID of letters, digits and hyphens. -/
def fakeDocument (id : String) : Bytes :=
  ascii ("\x7b\n    \"DirectorID\": \"" ++ id ++ "\"\n\x7d")

/-- The service built over the doubles, with its config path set. -/
def fakeService : fileSystemDeploymentConfigService FakeDisk :=
  SetConfigPath (NewFileSystemDeploymentConfigService fakeFS fakeGenerator)
    "/deployment.json"

/-- A world of the doubles with state `s` and no call made yet. -/
def fakeWorld (s : FakeDisk) : World FakeDisk Event :=
  { state := s, trace := [] }

end config

/-! ## Package `install` -/

namespace install

/-- The constant `logTag`. -/
def logTag : String := "packageInstaller"

/-- Modelled from the spec: the declaration of `CompiledPackageRecord` is not part
of the two source files; section 3 of the spec gives it the fields `BlobID` and
`Fingerprint`, both read by `Install`. -/
structure CompiledPackageRecord where
  BlobID : String
  Fingerprint : String
deriving DecidableEq

/-- Values passed as format arguments to `bosherr`; `Pkg` is the type
`bmrel.Package`, which `Install` only passes on. -/
inductive Arg (Pkg : Type) where
  | pkg (p : Pkg) : Arg Pkg
  | record (r : CompiledPackageRecord) : Arg Pkg
  | str (s : String) : Arg Pkg
deriving DecidableEq

/-- Calls made by the installer, in the order they are made.  `logError tag err`
is `logger.Error(tag, err.Error())`. -/
inductive Event (Pkg : Type) where
  | find (pkg : Pkg) : Event Pkg
  | get (blobID fingerprint : String) : Event Pkg
  | mkdirAll (path : String) (perm : Nat) : Event Pkg
  | extract (blobPath targetDir : String) : Event Pkg
  | cleanUp (path : String) : Event Pkg
  | logError (tag : String) (err : Error (Arg Pkg)) : Event Pkg
deriving DecidableEq

/-- The interface `bmpkgs.CompiledPackageRepo`: `Find` returns the record, the
found flag and the error. -/
structure CompiledPackageRepo (σ Pkg : Type) where
  Find : Pkg → σ → (CompiledPackageRecord × Bool × Option (Error (Arg Pkg))) × σ

/-- The interface `boshblob.Blobstore`. -/
structure Blobstore (σ Pkg : Type) where
  Get : String → String → σ → (String × Option (Error (Arg Pkg))) × σ
  CleanUp : String → σ → Option (Error (Arg Pkg)) × σ

/-- The interface `bmtar.Extractor`. -/
structure Extractor (σ Pkg : Type) where
  Extract : String → String → σ → Option (Error (Arg Pkg)) × σ

/-- The struct `packageInstaller`.  The `logger` field is the trace of the
world. -/
structure packageInstaller (σ Pkg : Type) where
  repo : CompiledPackageRepo σ Pkg
  blobstore : Blobstore σ Pkg
  extractor : Extractor σ Pkg
  fs : FileSystem σ (Arg Pkg)

variable {σ Pkg : Type}

/-- The constructor `NewPackageInstaller`. -/
def NewPackageInstaller (repo : CompiledPackageRepo σ Pkg) (blobstore : Blobstore σ Pkg)
    (extractor : Extractor σ Pkg) (fs : FileSystem σ (Arg Pkg)) : packageInstaller σ Pkg :=
  { repo := repo, blobstore := blobstore, extractor := extractor, fs := fs }

/-- Record one collaborator call: the next state and the event. -/
def record {α : Type} (r : α × σ) (e : Event Pkg) (w : World σ (Event Pkg)) :
    α × World σ (Event Pkg) :=
  (r.1, { state := r.2, trace := w.trace ++ [e] })

/-- The method `cleanUpBlob`. -/
def cleanUpBlob (pi : packageInstaller σ Pkg) (filePath : String)
    (w : World σ (Event Pkg)) : World σ (Event Pkg) :=
  match record (pi.blobstore.CleanUp filePath w.state) (Event.cleanUp filePath) w with
  | (some err, w1) =>
    { w1 with trace := w1.trace ++ [Event.logError logTag
        (bosherr.WrapError err "Removing compiled package tarball: %s" [Arg.str filePath])] }
  | (none, w1) => w1

/-- The statements of `Install` that follow `defer pi.cleanUpBlob(filePath)`. -/
def installBlob (pi : packageInstaller σ Pkg) (pgkRecord : CompiledPackageRecord)
    (filePath targetDir : String) (w : World σ (Event Pkg)) :
    Option (Error (Arg Pkg)) × World σ (Event Pkg) :=
  match record (pi.fs.MkdirAll targetDir osModePerm w.state)
      (Event.mkdirAll targetDir osModePerm) w with
  | (some err, w1) =>
    (some (bosherr.WrapError err "Creating target dir: %s" [Arg.str targetDir]), w1)
  | (none, w1) =>
    match record (pi.extractor.Extract filePath targetDir w1.state)
        (Event.extract filePath targetDir) w1 with
    | (some err, w2) =>
      (some (bosherr.WrapError err "Extracting compiled package: %#v" [Arg.record pgkRecord]),
        w2)
    | (none, w2) => (none, w2)

/-- The method `Install`.  The deferred `cleanUpBlob` runs when the statements
after the `defer` have fixed the value to return, and cannot change it. -/
def Install (pi : packageInstaller σ Pkg) (pkg : Pkg) (targetDir : String)
    (w : World σ (Event Pkg)) : Option (Error (Arg Pkg)) × World σ (Event Pkg) :=
  match record (pi.repo.Find pkg w.state) (Event.find pkg) w with
  | ((_, _, some err), w1) =>
    (some (bosherr.WrapError err "Finding compiled package record: %#v" [Arg.pkg pkg]), w1)
  | ((_, false, none), w1) =>
    (some (bosherr.New "Compiled package record not found: %#v" [Arg.pkg pkg]), w1)
  | ((pgkRecord, true, none), w1) =>
    match record (pi.blobstore.Get pgkRecord.BlobID pgkRecord.Fingerprint w1.state)
        (Event.get pgkRecord.BlobID pgkRecord.Fingerprint) w1 with
    | ((_, some err), w2) =>
      (some (bosherr.WrapError err "Getting compiled package from blobstore: %#v"
        [Arg.record pgkRecord]), w2)
    | ((filePath, none), w2) =>
      let r := installBlob pi pgkRecord filePath targetDir w2
      (r.1, cleanUpBlob pi filePath r.2)

/-- The paths passed to `CleanUp` in a list of calls, in order. -/
def cleanUpCalls : List (Event Pkg) → List String
  | [] => []
  | Event.cleanUp path :: rest => path :: cleanUpCalls rest
  | _ :: rest => cleanUpCalls rest

/-- The calls of `logger.Error` that `cleanUpBlob` makes after `CleanUp` answered
`r`: one if `r` is an error, none otherwise. -/
def cleanUpLog (filePath : String) (r : Option (Error (Arg Pkg))) : List (Event Pkg) :=
  match r with
  | some err =>
    [Event.logError logTag
      (bosherr.WrapError err "Removing compiled package tarball: %s" [Arg.str filePath])]
  | none => []

/-- The installer `pi` with the `CleanUp` method of its blobstore replaced. -/
def withCleanUp (pi : packageInstaller σ Pkg)
    (cleanUp : String → σ → Option (Error (Arg Pkg)) × σ) : packageInstaller σ Pkg :=
  { pi with blobstore := { pi.blobstore with CleanUp := cleanUp } }

/-- All four stages succeed: `Find` reports found, and `Get`, `MkdirAll` and
`Extract` return no error, each called in the state the previous one left and
`Extract` with the path `Get` returned. -/
def AllStagesSucceed (pi : packageInstaller σ Pkg) (pkg : Pkg) (targetDir : String)
    (s : σ) : Prop :=
  ∃ r s1 T s2 s3 s4,
    pi.repo.Find pkg s = ((r, true, none), s1) ∧
    pi.blobstore.Get r.BlobID r.Fingerprint s1 = ((T, none), s2) ∧
    pi.fs.MkdirAll targetDir osModePerm s2 = (none, s3) ∧
    pi.extractor.Extract T targetDir s3 = (none, s4)

/-! ### A test double for the installer's collaborators -/

/-- State of the test double: directories made, archives unpacked, temporary blob
files still present. -/
structure FakeHost where
  dirs : List String := []
  unpacked : List (String × String) := []
  blobs : List String := []
deriving DecidableEq

/-- Repo double: it knows the package `"P"` only. -/
def fakeRepo : CompiledPackageRepo FakeHost String where
  Find := fun pkg s =>
    if pkg = "P" then ((⟨"blob-42", "sha1:deadbeef"⟩, true, none), s)
    else ((⟨"", ""⟩, false, none), s)

/-- Blobstore double: `Get` puts the blob in a temporary file named after the
blob id, `CleanUp` removes it. -/
def fakeBlobstore : Blobstore FakeHost String where
  Get := fun blobID _ s =>
    (("/tmp/" ++ blobID ++ ".tgz", none),
      { s with blobs := ("/tmp/" ++ blobID ++ ".tgz") :: s.blobs })
  CleanUp := fun path s => (none, { s with blobs := s.blobs.filter (fun b => b != path) })

/-- Extractor double: it notes the archive and the directory. -/
def fakeExtractor : Extractor FakeHost String where
  Extract := fun blobPath targetDir s =>
    (none, { s with unpacked := (blobPath, targetDir) :: s.unpacked })

/-- File system double of the installer: only `MkdirAll` does something. -/
def fakeHostFS : FileSystem FakeHost (Arg String) where
  FileExists := fun _ s => (false, s)
  ReadFile := fun _ s => (([], some (Error.external "no such file")), s)
  WriteFile := fun _ _ s => (none, s)
  MkdirAll := fun path _ s => (none, { s with dirs := path :: s.dirs })

/-- The installer built over the doubles. -/
def fakeInstaller : packageInstaller FakeHost String :=
  NewPackageInstaller fakeRepo fakeBlobstore fakeExtractor fakeHostFS

/-- The empty world of the doubles. -/
def fakeHost : World FakeHost (Event String) :=
  { state := {}, trace := [] }

end install

end bosh

/-! ## Theorems about `Install` -/

namespace bosh

namespace install

variable {σ Pkg : Type}

theorem cleanUpCalls_append (xs ys : List (Event Pkg)) :
    cleanUpCalls (xs ++ ys) = cleanUpCalls xs ++ cleanUpCalls ys := by
  induction xs with
  | nil => rfl
  | cons x xs ih => cases x <;> simp [cleanUpCalls, ih]

theorem cleanUpCalls_cleanUpLog (filePath : String) (r : Option (Error (Arg Pkg))) :
    cleanUpCalls (cleanUpLog filePath r) = [] := by
  cases r <;> rfl

/-- What `cleanUpBlob` does: one `CleanUp` call, then the log entry if it failed. -/
theorem cleanUpBlob_eq (pi : packageInstaller σ Pkg) (filePath : String)
    (w : World σ (Event Pkg)) :
    cleanUpBlob pi filePath w =
      { state := (pi.blobstore.CleanUp filePath w.state).2,
        trace := w.trace ++ Event.cleanUp filePath ::
          cleanUpLog filePath (pi.blobstore.CleanUp filePath w.state).1 } := by
  unfold cleanUpBlob record cleanUpLog
  cases h : (pi.blobstore.CleanUp filePath w.state).1 <;> simp

/-- The statements after the `defer` do not look at `CleanUp`. -/
theorem installBlob_withCleanUp (pi : packageInstaller σ Pkg)
    (cleanUp : String → σ → Option (Error (Arg Pkg)) × σ) (r : CompiledPackageRecord)
    (filePath targetDir : String) (w : World σ (Event Pkg)) :
    installBlob (withCleanUp pi cleanUp) r filePath targetDir w =
      installBlob pi r filePath targetDir w := rfl

/-- The calls `installBlob` adds are `MkdirAll` and `Extract` calls only. -/
theorem installBlob_trace (pi : packageInstaller σ Pkg) (r : CompiledPackageRecord)
    (filePath targetDir : String) (w : World σ (Event Pkg)) :
    ∃ mid, (installBlob pi r filePath targetDir w).2.trace = w.trace ++ mid ∧
      cleanUpCalls mid = [] := by
  unfold installBlob record
  cases h1 : (pi.fs.MkdirAll targetDir osModePerm w.state).1 with
  | some e => exact ⟨[Event.mkdirAll targetDir osModePerm], by simp, rfl⟩
  | none =>
    cases h2 : (pi.extractor.Extract filePath targetDir
        (pi.fs.MkdirAll targetDir osModePerm w.state).2).1 with
    | some e =>
      exact ⟨[Event.mkdirAll targetDir osModePerm, Event.extract filePath targetDir],
        by simp [h2], rfl⟩
    | none =>
      exact ⟨[Event.mkdirAll targetDir osModePerm, Event.extract filePath targetDir],
        by simp [h2], rfl⟩

/-- C1. If `repo.Find` succeeds with `found = true` and `blobstore.Get` succeeds
with path `T`, then whatever `MkdirAll`, `Extract`, `CleanUp` and the rest of the
world do, the calls `Install` makes are `Find`, `Get`, some calls that are not
`CleanUp`, then `CleanUp T`, then calls that are not `CleanUp`: `CleanUp` is
invoked exactly once, with `T`, after `Get`, on every exit path. -/
theorem install_cleanUp_exactly_once (pi : packageInstaller σ Pkg) (pkg : Pkg)
    (targetDir : String) (w : World σ (Event Pkg)) (pgkRecord : CompiledPackageRecord)
    (T : String) (s1 s2 : σ)
    (hfind : pi.repo.Find pkg w.state = ((pgkRecord, true, none), s1))
    (hget : pi.blobstore.Get pgkRecord.BlobID pgkRecord.Fingerprint s1 = ((T, none), s2)) :
    (∃ mid logs,
      (Install pi pkg targetDir w).2.trace =
        w.trace ++ (Event.find pkg :: Event.get pgkRecord.BlobID pgkRecord.Fingerprint :: mid)
          ++ Event.cleanUp T :: logs ∧
      cleanUpCalls mid = [] ∧ cleanUpCalls logs = []) ∧
    cleanUpCalls ((Install pi pkg targetDir w).2.trace.drop w.trace.length) = [T] := by
  have key : ∃ mid logs,
      (Install pi pkg targetDir w).2.trace =
        w.trace ++ (Event.find pkg :: Event.get pgkRecord.BlobID pgkRecord.Fingerprint :: mid)
          ++ Event.cleanUp T :: logs ∧
      cleanUpCalls mid = [] ∧ cleanUpCalls logs = [] := by
    obtain ⟨mid, hmid, hnone⟩ := installBlob_trace pi pgkRecord T targetDir
      { state := s2,
        trace := w.trace ++ [Event.find pkg] ++
          [Event.get pgkRecord.BlobID pgkRecord.Fingerprint] }
    refine ⟨mid, cleanUpLog T (pi.blobstore.CleanUp T
      (installBlob pi pgkRecord T targetDir
        { state := s2,
          trace := w.trace ++ [Event.find pkg] ++
            [Event.get pgkRecord.BlobID pgkRecord.Fingerprint] }).2.state).1, ?_, hnone,
      cleanUpCalls_cleanUpLog _ _⟩
    simp only [Install, record, hfind, hget, cleanUpBlob_eq, hmid]
    simp
  refine ⟨key, ?_⟩
  obtain ⟨mid, logs, htrace, hmid, hlogs⟩ := key
  rw [htrace, List.append_assoc, List.drop_left]
  simp [cleanUpCalls_append, cleanUpCalls, hmid, hlogs]

/-- Witness for C1: the happy path of the spec, on the test doubles. -/
theorem install_cleanUp_exactly_once_witness :
    cleanUpCalls ((Install fakeInstaller "P" "/var/vcap/packages/P" fakeHost).2.trace.drop
      fakeHost.trace.length) = ["/tmp/blob-42.tgz"] :=
  (install_cleanUp_exactly_once fakeInstaller "P" "/var/vcap/packages/P" fakeHost
    ⟨"blob-42", "sha1:deadbeef"⟩ "/tmp/blob-42.tgz" fakeHost.state
    { blobs := ["/tmp/blob-42.tgz"] } (by decide) (by decide)).2

/-- C2. If `repo.Find` returns `found = false` and no error, `Install` returns the
not-found error, the only call it makes is that `Find` (no `Get`, `CleanUp`,
`MkdirAll` or `Extract`), and the world is left in the state in which `Find`
left it: every part of the state that `Find` does not change is unchanged. -/
theorem install_not_found (pi : packageInstaller σ Pkg) (pkg : Pkg) (targetDir : String)
    (w : World σ (Event Pkg)) (pgkRecord : CompiledPackageRecord) (s1 : σ)
    (hfind : pi.repo.Find pkg w.state = ((pgkRecord, false, none), s1)) :
    Install pi pkg targetDir w =
      (some (bosherr.New "Compiled package record not found: %#v" [Arg.pkg pkg]),
        { state := s1, trace := w.trace ++ [Event.find pkg] }) ∧
    (Install pi pkg targetDir w).1 ≠ none ∧
    (∀ (β : Type) (part : σ → β), part s1 = part w.state →
      part (Install pi pkg targetDir w).2.state = part w.state) := by
  have h : Install pi pkg targetDir w =
      (some (bosherr.New "Compiled package record not found: %#v" [Arg.pkg pkg]),
        { state := s1, trace := w.trace ++ [Event.find pkg] }) := by
    simp [Install, record, hfind]
  refine ⟨h, by simp [h], ?_⟩
  intro β part hpart
  simp [h, hpart]

/-- Witness for C2: the repo double does not know the package `"Q"`. -/
theorem install_not_found_witness :
    Install fakeInstaller "Q" "/var/vcap/packages/Q" fakeHost =
      (some (bosherr.New "Compiled package record not found: %#v" [Arg.pkg "Q"]),
        { state := fakeHost.state, trace := fakeHost.trace ++ [Event.find "Q"] }) :=
  (install_not_found fakeInstaller "Q" "/var/vcap/packages/Q" fakeHost ⟨"", ""⟩
    fakeHost.state (by decide)).1

/-- `Install` unfolded, with the deferred call made explicit. -/
theorem Install_eq (pi : packageInstaller σ Pkg) (pkg : Pkg) (targetDir : String)
    (w : World σ (Event Pkg)) :
    Install pi pkg targetDir w =
      match pi.repo.Find pkg w.state with
      | ((_, _, some err), s1) =>
        (some (bosherr.WrapError err "Finding compiled package record: %#v" [Arg.pkg pkg]),
          { state := s1, trace := w.trace ++ [Event.find pkg] })
      | ((_, false, none), s1) =>
        (some (bosherr.New "Compiled package record not found: %#v" [Arg.pkg pkg]),
          { state := s1, trace := w.trace ++ [Event.find pkg] })
      | ((r, true, none), s1) =>
        match pi.blobstore.Get r.BlobID r.Fingerprint s1 with
        | ((_, some err), s2) =>
          (some (bosherr.WrapError err "Getting compiled package from blobstore: %#v"
            [Arg.record r]),
            { state := s2,
              trace := w.trace ++ [Event.find pkg, Event.get r.BlobID r.Fingerprint] })
        | ((T, none), s2) =>
          ((installBlob pi r T targetDir
              { state := s2,
                trace := w.trace ++ [Event.find pkg, Event.get r.BlobID r.Fingerprint] }).1,
            cleanUpBlob pi T (installBlob pi r T targetDir
              { state := s2,
                trace := w.trace ++ [Event.find pkg, Event.get r.BlobID r.Fingerprint] }).2) := by
  unfold Install record
  rcases hf : pi.repo.Find pkg w.state with ⟨⟨r, found, err⟩, s1⟩
  cases found <;> cases err <;> try rfl
  simp only
  rcases hg : pi.blobstore.Get r.BlobID r.Fingerprint s1 with ⟨⟨T, gerr⟩, s2⟩
  cases gerr <;> simp

theorem Install_find_error (pi : packageInstaller σ Pkg) (pkg : Pkg) (targetDir : String)
    (w : World σ (Event Pkg)) (r : CompiledPackageRecord) (found : Bool)
    (e : Error (Arg Pkg)) (s1 : σ)
    (hfind : pi.repo.Find pkg w.state = ((r, found, some e), s1)) :
    Install pi pkg targetDir w =
      (some (bosherr.WrapError e "Finding compiled package record: %#v" [Arg.pkg pkg]),
        { state := s1, trace := w.trace ++ [Event.find pkg] }) := by
  rw [Install_eq, hfind]
  cases found <;> rfl

theorem Install_find_missing (pi : packageInstaller σ Pkg) (pkg : Pkg) (targetDir : String)
    (w : World σ (Event Pkg)) (r : CompiledPackageRecord) (s1 : σ)
    (hfind : pi.repo.Find pkg w.state = ((r, false, none), s1)) :
    Install pi pkg targetDir w =
      (some (bosherr.New "Compiled package record not found: %#v" [Arg.pkg pkg]),
        { state := s1, trace := w.trace ++ [Event.find pkg] }) := by
  rw [Install_eq, hfind]

theorem Install_get_error (pi : packageInstaller σ Pkg) (pkg : Pkg) (targetDir : String)
    (w : World σ (Event Pkg)) (r : CompiledPackageRecord) (s1 : σ) (T : String)
    (e : Error (Arg Pkg)) (s2 : σ)
    (hfind : pi.repo.Find pkg w.state = ((r, true, none), s1))
    (hget : pi.blobstore.Get r.BlobID r.Fingerprint s1 = ((T, some e), s2)) :
    Install pi pkg targetDir w =
      (some (bosherr.WrapError e "Getting compiled package from blobstore: %#v"
        [Arg.record r]),
        { state := s2,
          trace := w.trace ++ [Event.find pkg, Event.get r.BlobID r.Fingerprint] }) := by
  rw [Install_eq, hfind]
  simp only [hget]

theorem Install_mkdirAll_error (pi : packageInstaller σ Pkg) (pkg : Pkg) (targetDir : String)
    (w : World σ (Event Pkg)) (r : CompiledPackageRecord) (s1 : σ) (T : String) (s2 : σ)
    (e : Error (Arg Pkg)) (s3 : σ)
    (hfind : pi.repo.Find pkg w.state = ((r, true, none), s1))
    (hget : pi.blobstore.Get r.BlobID r.Fingerprint s1 = ((T, none), s2))
    (hmk : pi.fs.MkdirAll targetDir osModePerm s2 = (some e, s3)) :
    Install pi pkg targetDir w =
      (some (bosherr.WrapError e "Creating target dir: %s" [Arg.str targetDir]),
        { state := (pi.blobstore.CleanUp T s3).2,
          trace := w.trace ++
            [Event.find pkg, Event.get r.BlobID r.Fingerprint,
              Event.mkdirAll targetDir osModePerm, Event.cleanUp T] ++
            cleanUpLog T (pi.blobstore.CleanUp T s3).1 }) := by
  rw [Install_eq, hfind]
  simp [hget, installBlob, record, hmk, cleanUpBlob_eq]

theorem Install_extract_error (pi : packageInstaller σ Pkg) (pkg : Pkg) (targetDir : String)
    (w : World σ (Event Pkg)) (r : CompiledPackageRecord) (s1 : σ) (T : String) (s2 s3 : σ)
    (e : Error (Arg Pkg)) (s4 : σ)
    (hfind : pi.repo.Find pkg w.state = ((r, true, none), s1))
    (hget : pi.blobstore.Get r.BlobID r.Fingerprint s1 = ((T, none), s2))
    (hmk : pi.fs.MkdirAll targetDir osModePerm s2 = (none, s3))
    (hex : pi.extractor.Extract T targetDir s3 = (some e, s4)) :
    Install pi pkg targetDir w =
      (some (bosherr.WrapError e "Extracting compiled package: %#v" [Arg.record r]),
        { state := (pi.blobstore.CleanUp T s4).2,
          trace := w.trace ++
            [Event.find pkg, Event.get r.BlobID r.Fingerprint,
              Event.mkdirAll targetDir osModePerm, Event.extract T targetDir,
              Event.cleanUp T] ++
            cleanUpLog T (pi.blobstore.CleanUp T s4).1 }) := by
  rw [Install_eq, hfind]
  simp [hget, installBlob, record, hmk, hex, cleanUpBlob_eq]

theorem Install_success (pi : packageInstaller σ Pkg) (pkg : Pkg) (targetDir : String)
    (w : World σ (Event Pkg)) (r : CompiledPackageRecord) (s1 : σ) (T : String)
    (s2 s3 s4 : σ)
    (hfind : pi.repo.Find pkg w.state = ((r, true, none), s1))
    (hget : pi.blobstore.Get r.BlobID r.Fingerprint s1 = ((T, none), s2))
    (hmk : pi.fs.MkdirAll targetDir osModePerm s2 = (none, s3))
    (hex : pi.extractor.Extract T targetDir s3 = (none, s4)) :
    Install pi pkg targetDir w =
      (none,
        { state := (pi.blobstore.CleanUp T s4).2,
          trace := w.trace ++
            [Event.find pkg, Event.get r.BlobID r.Fingerprint,
              Event.mkdirAll targetDir osModePerm, Event.extract T targetDir,
              Event.cleanUp T] ++
            cleanUpLog T (pi.blobstore.CleanUp T s4).1 }) := by
  rw [Install_eq, hfind]
  simp [hget, installBlob, record, hmk, hex, cleanUpBlob_eq]

theorem Install_none_iff (pi : packageInstaller σ Pkg) (pkg : Pkg) (targetDir : String)
    (w : World σ (Event Pkg)) :
    (Install pi pkg targetDir w).1 = none ↔ AllStagesSucceed pi pkg targetDir w.state := by
  unfold AllStagesSucceed
  rcases hf : pi.repo.Find pkg w.state with ⟨⟨r, found, err⟩, s1⟩
  cases err with
  | some e => simp [Install_find_error pi pkg targetDir w r found e s1 hf]
  | none =>
    cases found with
    | false => simp [Install_find_missing pi pkg targetDir w r s1 hf]
    | true =>
      rcases hg : pi.blobstore.Get r.BlobID r.Fingerprint s1 with ⟨⟨T, gerr⟩, s2⟩
      cases gerr with
      | some e => simp [Install_get_error pi pkg targetDir w r s1 T e s2 hf hg, hg]
      | none =>
        rcases hm : pi.fs.MkdirAll targetDir osModePerm s2 with ⟨merr, s3⟩
        cases merr with
        | some e =>
          simp [Install_mkdirAll_error pi pkg targetDir w r s1 T s2 e s3 hf hg hm, hg, hm]
        | none =>
          rcases hx : pi.extractor.Extract T targetDir s3 with ⟨xerr, s4⟩
          cases xerr with
          | some e =>
            simp [Install_extract_error pi pkg targetDir w r s1 T s2 s3 e s4 hf hg hm hx,
              hg, hm, hx]
          | none =>
            exact ⟨fun _ => ⟨r, s1, T, s2, s3, s4, rfl, hg, hm, hx⟩,
              fun _ => by rw [Install_success pi pkg targetDir w r s1 T s2 s3 s4 hf hg hm hx]⟩

/-- The value `Install` returns does not depend on `CleanUp`. -/
theorem Install_withCleanUp_result (pi : packageInstaller σ Pkg)
    (c : String → σ → Option (Error (Arg Pkg)) × σ) (pkg : Pkg) (targetDir : String)
    (w : World σ (Event Pkg)) :
    (Install (withCleanUp pi c) pkg targetDir w).1 = (Install pi pkg targetDir w).1 := by
  simp only [Install_eq, installBlob_withCleanUp]
  simp only [withCleanUp]
  rcases hf : pi.repo.Find pkg w.state with ⟨⟨r, found, err⟩, s1⟩
  cases found <;> cases err <;> try rfl
  simp only
  rcases hg : pi.blobstore.Get r.BlobID r.Fingerprint s1 with ⟨⟨T, gerr⟩, s2⟩
  cases gerr <;> rfl

/-- C3. Take two runs of `Install` that differ only in the behaviour `c1`, `c2` of
the blobstore's `CleanUp`: they return the same value.  That value is `nil`
exactly when `Find`, `Get`, `MkdirAll` and `Extract` succeeded, and the error of
the failing stage otherwise, whatever `CleanUp` does.  When `Find` or `Get` fails
`CleanUp` is not called.  When `Get` returned `T`, the run calls `CleanUp T`
once, in the state `s` the earlier stages left; the world is then in the state
`CleanUp` left, and the calls of the run are those of the earlier stages and
`CleanUp T`, followed by one call of `logger.Error` with the wrapped error if
`CleanUp` returned an error, and by nothing if it returned `nil`. -/
theorem install_result_independent_of_cleanUp (pi : packageInstaller σ Pkg)
    (c1 c2 : String → σ → Option (Error (Arg Pkg)) × σ) (pkg : Pkg) (targetDir : String)
    (w : World σ (Event Pkg)) :
    (Install (withCleanUp pi c1) pkg targetDir w).1 =
      (Install (withCleanUp pi c2) pkg targetDir w).1 ∧
    ((Install (withCleanUp pi c1) pkg targetDir w).1 = none ↔
      AllStagesSucceed pi pkg targetDir w.state) ∧
    (∀ r found e s1, pi.repo.Find pkg w.state = ((r, found, some e), s1) →
      Install (withCleanUp pi c1) pkg targetDir w =
        (some (bosherr.WrapError e "Finding compiled package record: %#v" [Arg.pkg pkg]),
          { state := s1, trace := w.trace ++ [Event.find pkg] })) ∧
    (∀ r s1, pi.repo.Find pkg w.state = ((r, false, none), s1) →
      Install (withCleanUp pi c1) pkg targetDir w =
        (some (bosherr.New "Compiled package record not found: %#v" [Arg.pkg pkg]),
          { state := s1, trace := w.trace ++ [Event.find pkg] })) ∧
    (∀ r s1 T e s2, pi.repo.Find pkg w.state = ((r, true, none), s1) →
      pi.blobstore.Get r.BlobID r.Fingerprint s1 = ((T, some e), s2) →
      Install (withCleanUp pi c1) pkg targetDir w =
        (some (bosherr.WrapError e "Getting compiled package from blobstore: %#v"
          [Arg.record r]),
          { state := s2,
            trace := w.trace ++ [Event.find pkg, Event.get r.BlobID r.Fingerprint] })) ∧
    (∀ r s1 T s2 e s3, pi.repo.Find pkg w.state = ((r, true, none), s1) →
      pi.blobstore.Get r.BlobID r.Fingerprint s1 = ((T, none), s2) →
      pi.fs.MkdirAll targetDir osModePerm s2 = (some e, s3) →
      (Install (withCleanUp pi c1) pkg targetDir w).1 =
        some (bosherr.WrapError e "Creating target dir: %s" [Arg.str targetDir]) ∧
      (Install (withCleanUp pi c1) pkg targetDir w).2.state = (c1 T s3).2 ∧
      (∀ ce, (c1 T s3).1 = some ce →
        (Install (withCleanUp pi c1) pkg targetDir w).2.trace =
          w.trace ++
            [Event.find pkg, Event.get r.BlobID r.Fingerprint,
              Event.mkdirAll targetDir osModePerm, Event.cleanUp T,
              Event.logError logTag
                (bosherr.WrapError ce "Removing compiled package tarball: %s" [Arg.str T])]) ∧
      ((c1 T s3).1 = none →
        (Install (withCleanUp pi c1) pkg targetDir w).2.trace =
          w.trace ++
            [Event.find pkg, Event.get r.BlobID r.Fingerprint,
              Event.mkdirAll targetDir osModePerm, Event.cleanUp T])) ∧
    (∀ r s1 T s2 s3 e s4, pi.repo.Find pkg w.state = ((r, true, none), s1) →
      pi.blobstore.Get r.BlobID r.Fingerprint s1 = ((T, none), s2) →
      pi.fs.MkdirAll targetDir osModePerm s2 = (none, s3) →
      pi.extractor.Extract T targetDir s3 = (some e, s4) →
      (Install (withCleanUp pi c1) pkg targetDir w).1 =
        some (bosherr.WrapError e "Extracting compiled package: %#v" [Arg.record r]) ∧
      (Install (withCleanUp pi c1) pkg targetDir w).2.state = (c1 T s4).2 ∧
      (∀ ce, (c1 T s4).1 = some ce →
        (Install (withCleanUp pi c1) pkg targetDir w).2.trace =
          w.trace ++
            [Event.find pkg, Event.get r.BlobID r.Fingerprint,
              Event.mkdirAll targetDir osModePerm, Event.extract T targetDir,
              Event.cleanUp T,
              Event.logError logTag
                (bosherr.WrapError ce "Removing compiled package tarball: %s" [Arg.str T])]) ∧
      ((c1 T s4).1 = none →
        (Install (withCleanUp pi c1) pkg targetDir w).2.trace =
          w.trace ++
            [Event.find pkg, Event.get r.BlobID r.Fingerprint,
              Event.mkdirAll targetDir osModePerm, Event.extract T targetDir,
              Event.cleanUp T])) ∧
    (∀ r s1 T s2 s3 s4, pi.repo.Find pkg w.state = ((r, true, none), s1) →
      pi.blobstore.Get r.BlobID r.Fingerprint s1 = ((T, none), s2) →
      pi.fs.MkdirAll targetDir osModePerm s2 = (none, s3) →
      pi.extractor.Extract T targetDir s3 = (none, s4) →
      (Install (withCleanUp pi c1) pkg targetDir w).1 = none ∧
      (Install (withCleanUp pi c1) pkg targetDir w).2.state = (c1 T s4).2 ∧
      (∀ ce, (c1 T s4).1 = some ce →
        (Install (withCleanUp pi c1) pkg targetDir w).2.trace =
          w.trace ++
            [Event.find pkg, Event.get r.BlobID r.Fingerprint,
              Event.mkdirAll targetDir osModePerm, Event.extract T targetDir,
              Event.cleanUp T,
              Event.logError logTag
                (bosherr.WrapError ce "Removing compiled package tarball: %s" [Arg.str T])]) ∧
      ((c1 T s4).1 = none →
        (Install (withCleanUp pi c1) pkg targetDir w).2.trace =
          w.trace ++
            [Event.find pkg, Event.get r.BlobID r.Fingerprint,
              Event.mkdirAll targetDir osModePerm, Event.extract T targetDir,
              Event.cleanUp T])) := by
  refine ⟨(Install_withCleanUp_result pi c1 pkg targetDir w).trans
      (Install_withCleanUp_result pi c2 pkg targetDir w).symm,
    Install_none_iff (withCleanUp pi c1) pkg targetDir w,
    fun r found e s1 => Install_find_error (withCleanUp pi c1) pkg targetDir w r found e s1,
    fun r s1 => Install_find_missing (withCleanUp pi c1) pkg targetDir w r s1,
    fun r s1 T e s2 => Install_get_error (withCleanUp pi c1) pkg targetDir w r s1 T e s2,
    ?_, ?_, ?_⟩
  · intro r s1 T s2 e s3 hf hg hm
    have h := Install_mkdirAll_error (withCleanUp pi c1) pkg targetDir w r s1 T s2 e s3 hf hg hm
    have hc : (withCleanUp pi c1).blobstore.CleanUp T s3 = c1 T s3 := rfl
    rw [hc] at h
    refine ⟨by rw [h], by rw [h], fun ce hce => ?_, fun hce => ?_⟩
    · rw [h, hce]; simp [cleanUpLog]
    · rw [h, hce]; simp [cleanUpLog]
  · intro r s1 T s2 s3 e s4 hf hg hm hx
    have h := Install_extract_error (withCleanUp pi c1) pkg targetDir w r s1 T s2 s3 e s4
      hf hg hm hx
    have hc : (withCleanUp pi c1).blobstore.CleanUp T s4 = c1 T s4 := rfl
    rw [hc] at h
    refine ⟨by rw [h], by rw [h], fun ce hce => ?_, fun hce => ?_⟩
    · rw [h, hce]; simp [cleanUpLog]
    · rw [h, hce]; simp [cleanUpLog]
  · intro r s1 T s2 s3 s4 hf hg hm hx
    have h := Install_success (withCleanUp pi c1) pkg targetDir w r s1 T s2 s3 s4 hf hg hm hx
    have hc : (withCleanUp pi c1).blobstore.CleanUp T s4 = c1 T s4 := rfl
    rw [hc] at h
    refine ⟨by rw [h], by rw [h], fun ce hce => ?_, fun hce => ?_⟩
    · rw [h, hce]; simp [cleanUpLog]
    · rw [h, hce]; simp [cleanUpLog]

/-- Witness for C3: the happy path of the spec with a `CleanUp` that fails.
`Install` returns `nil` all the same, and the failure is logged. -/
theorem install_result_independent_of_cleanUp_witness :
    (Install (withCleanUp fakeInstaller (fun _ s => (some (Error.external "busy"), s))) "P"
      "/var/vcap/packages/P" fakeHost).1 = none ∧
    (Install (withCleanUp fakeInstaller (fun _ s => (some (Error.external "busy"), s))) "P"
      "/var/vcap/packages/P" fakeHost).2.trace =
      fakeHost.trace ++
        [Event.find "P", Event.get "blob-42" "sha1:deadbeef",
          Event.mkdirAll "/var/vcap/packages/P" osModePerm,
          Event.extract "/tmp/blob-42.tgz" "/var/vcap/packages/P",
          Event.cleanUp "/tmp/blob-42.tgz",
          Event.logError logTag
            (bosherr.WrapError (Error.external "busy")
              "Removing compiled package tarball: %s" [Arg.str "/tmp/blob-42.tgz"])] :=
  ⟨((install_result_independent_of_cleanUp fakeInstaller
      (fun _ s => (some (Error.external "busy"), s)) fakeInstaller.blobstore.CleanUp "P"
      "/var/vcap/packages/P" fakeHost).2.2.2.2.2.2.2
      ⟨"blob-42", "sha1:deadbeef"⟩ {} "/tmp/blob-42.tgz"
      { blobs := ["/tmp/blob-42.tgz"] }
      { dirs := ["/var/vcap/packages/P"], blobs := ["/tmp/blob-42.tgz"] }
      { dirs := ["/var/vcap/packages/P"],
        unpacked := [("/tmp/blob-42.tgz", "/var/vcap/packages/P")],
        blobs := ["/tmp/blob-42.tgz"] }
      (by decide) (by decide) (by decide) (by decide)).1,
    ((install_result_independent_of_cleanUp fakeInstaller
      (fun _ s => (some (Error.external "busy"), s)) fakeInstaller.blobstore.CleanUp "P"
      "/var/vcap/packages/P" fakeHost).2.2.2.2.2.2.2
      ⟨"blob-42", "sha1:deadbeef"⟩ {} "/tmp/blob-42.tgz"
      { blobs := ["/tmp/blob-42.tgz"] }
      { dirs := ["/var/vcap/packages/P"], blobs := ["/tmp/blob-42.tgz"] }
      { dirs := ["/var/vcap/packages/P"],
        unpacked := [("/tmp/blob-42.tgz", "/var/vcap/packages/P")],
        blobs := ["/tmp/blob-42.tgz"] }
      (by decide) (by decide) (by decide) (by decide)).2.2.1 (Error.external "busy") rfl⟩

/-- C9. `Install` is an ordered short-circuit pipeline.  It returns `nil` exactly
when `Find` reports found and `Find`, `Get`, `MkdirAll` and `Extract` all succeed,
and for every way a run can go the value returned and the calls made are:
`Find` fails, or finds nothing: that stage's error, and `Find` is the only call;
`Get(record.BlobID, record.Fingerprint)` fails: its error, no `MkdirAll`,
`Extract` or `CleanUp`; `MkdirAll(targetDir, os.ModePerm)` fails: its error, no
`Extract`, then `CleanUp`; `Extract(T, targetDir)` fails, with `T` the path `Get`
returned: its error, then `CleanUp`; every stage succeeds: `nil`, then
`CleanUp`. -/
theorem install_ordered_pipeline (pi : packageInstaller σ Pkg) (pkg : Pkg)
    (targetDir : String) (w : World σ (Event Pkg)) :
    ((Install pi pkg targetDir w).1 = none ↔ AllStagesSucceed pi pkg targetDir w.state) ∧
    (∀ r found e s1, pi.repo.Find pkg w.state = ((r, found, some e), s1) →
      Install pi pkg targetDir w =
        (some (bosherr.WrapError e "Finding compiled package record: %#v" [Arg.pkg pkg]),
          { state := s1, trace := w.trace ++ [Event.find pkg] })) ∧
    (∀ r s1, pi.repo.Find pkg w.state = ((r, false, none), s1) →
      Install pi pkg targetDir w =
        (some (bosherr.New "Compiled package record not found: %#v" [Arg.pkg pkg]),
          { state := s1, trace := w.trace ++ [Event.find pkg] })) ∧
    (∀ r s1 T e s2, pi.repo.Find pkg w.state = ((r, true, none), s1) →
      pi.blobstore.Get r.BlobID r.Fingerprint s1 = ((T, some e), s2) →
      Install pi pkg targetDir w =
        (some (bosherr.WrapError e "Getting compiled package from blobstore: %#v"
          [Arg.record r]),
          { state := s2,
            trace := w.trace ++ [Event.find pkg, Event.get r.BlobID r.Fingerprint] })) ∧
    (∀ r s1 T s2 e s3, pi.repo.Find pkg w.state = ((r, true, none), s1) →
      pi.blobstore.Get r.BlobID r.Fingerprint s1 = ((T, none), s2) →
      pi.fs.MkdirAll targetDir osModePerm s2 = (some e, s3) →
      Install pi pkg targetDir w =
        (some (bosherr.WrapError e "Creating target dir: %s" [Arg.str targetDir]),
          { state := (pi.blobstore.CleanUp T s3).2,
            trace := w.trace ++
              [Event.find pkg, Event.get r.BlobID r.Fingerprint,
                Event.mkdirAll targetDir osModePerm, Event.cleanUp T] ++
              cleanUpLog T (pi.blobstore.CleanUp T s3).1 })) ∧
    (∀ r s1 T s2 s3 e s4, pi.repo.Find pkg w.state = ((r, true, none), s1) →
      pi.blobstore.Get r.BlobID r.Fingerprint s1 = ((T, none), s2) →
      pi.fs.MkdirAll targetDir osModePerm s2 = (none, s3) →
      pi.extractor.Extract T targetDir s3 = (some e, s4) →
      Install pi pkg targetDir w =
        (some (bosherr.WrapError e "Extracting compiled package: %#v" [Arg.record r]),
          { state := (pi.blobstore.CleanUp T s4).2,
            trace := w.trace ++
              [Event.find pkg, Event.get r.BlobID r.Fingerprint,
                Event.mkdirAll targetDir osModePerm, Event.extract T targetDir,
                Event.cleanUp T] ++
              cleanUpLog T (pi.blobstore.CleanUp T s4).1 })) ∧
    (∀ r s1 T s2 s3 s4, pi.repo.Find pkg w.state = ((r, true, none), s1) →
      pi.blobstore.Get r.BlobID r.Fingerprint s1 = ((T, none), s2) →
      pi.fs.MkdirAll targetDir osModePerm s2 = (none, s3) →
      pi.extractor.Extract T targetDir s3 = (none, s4) →
      Install pi pkg targetDir w =
        (none,
          { state := (pi.blobstore.CleanUp T s4).2,
            trace := w.trace ++
              [Event.find pkg, Event.get r.BlobID r.Fingerprint,
                Event.mkdirAll targetDir osModePerm, Event.extract T targetDir,
                Event.cleanUp T] ++
              cleanUpLog T (pi.blobstore.CleanUp T s4).1 })) :=
  ⟨Install_none_iff pi pkg targetDir w,
    fun r found e s1 => Install_find_error pi pkg targetDir w r found e s1,
    fun r s1 => Install_find_missing pi pkg targetDir w r s1,
    fun r s1 T e s2 => Install_get_error pi pkg targetDir w r s1 T e s2,
    fun r s1 T s2 e s3 => Install_mkdirAll_error pi pkg targetDir w r s1 T s2 e s3,
    fun r s1 T s2 s3 e s4 => Install_extract_error pi pkg targetDir w r s1 T s2 s3 e s4,
    fun r s1 T s2 s3 s4 => Install_success pi pkg targetDir w r s1 T s2 s3 s4⟩

/-- Witness for C9: the happy path of the spec, on the test doubles. -/
theorem install_ordered_pipeline_witness :
    Install fakeInstaller "P" "/var/vcap/packages/P" fakeHost =
      (none,
        { state :=
            { dirs := ["/var/vcap/packages/P"],
              unpacked := [("/tmp/blob-42.tgz", "/var/vcap/packages/P")],
              blobs := [] },
          trace :=
            [Event.find "P", Event.get "blob-42" "sha1:deadbeef",
              Event.mkdirAll "/var/vcap/packages/P" 0o777,
              Event.extract "/tmp/blob-42.tgz" "/var/vcap/packages/P",
              Event.cleanUp "/tmp/blob-42.tgz"] }) :=
  (install_ordered_pipeline fakeInstaller "P" "/var/vcap/packages/P" fakeHost).2.2.2.2.2.2
    ⟨"blob-42", "sha1:deadbeef"⟩ {} "/tmp/blob-42.tgz"
    { blobs := ["/tmp/blob-42.tgz"] }
    { dirs := ["/var/vcap/packages/P"], blobs := ["/tmp/blob-42.tgz"] }
    { dirs := ["/var/vcap/packages/P"],
      unpacked := [("/tmp/blob-42.tgz", "/var/vcap/packages/P")],
      blobs := ["/tmp/blob-42.tgz"] }
    (by decide) (by decide) (by decide) (by decide)

end install

/-! ## Theorems about the deployment config service -/

namespace config

variable {σ : Type}

theorem Save_marshal_error (json : JSON) (s : fileSystemDeploymentConfigService σ)
    (df : DeploymentFile) (w : World σ Event) (b : Bytes) (e : Error Arg)
    (hpath : s.configPath ≠ "")
    (hm : json.MarshalIndent df "" "    " = (b, some e)) :
    Save json s df w =
      (Outcome.returned
        (some (bosherr.WrapError e "Marshalling deployment config into JSON" [])),
        { state := w.state,
          trace := w.trace ++
            [Event.logDebug s.logTag "Saving deployment config %#v"
              [Arg.deploymentFile df]] }) := by
  simp [Save, hpath, hm, loggerDebug]

theorem Save_write_error (json : JSON) (s : fileSystemDeploymentConfigService σ)
    (df : DeploymentFile) (w : World σ Event) (b : Bytes) (e : Error Arg) (s1 : σ)
    (hpath : s.configPath ≠ "")
    (hm : json.MarshalIndent df "" "    " = (b, none))
    (hw : s.fs.WriteFile s.configPath b w.state = (some e, s1)) :
    Save json s df w =
      (Outcome.returned
        (some (bosherr.WrapErrorf e "Writing deployment config file '%s'"
          [Arg.str s.configPath])),
        { state := s1,
          trace := w.trace ++
            [Event.logDebug s.logTag "Saving deployment config %#v" [Arg.deploymentFile df],
              Event.writeFile s.configPath b] }) := by
  simp [Save, hpath, hm, loggerDebug, fsWriteFile, hw]

theorem Save_ok (json : JSON) (s : fileSystemDeploymentConfigService σ)
    (df : DeploymentFile) (w : World σ Event) (b : Bytes) (s1 : σ)
    (hpath : s.configPath ≠ "")
    (hm : json.MarshalIndent df "" "    " = (b, none))
    (hw : s.fs.WriteFile s.configPath b w.state = (none, s1)) :
    Save json s df w =
      (Outcome.returned none,
        { state := s1,
          trace := w.trace ++
            [Event.logDebug s.logTag "Saving deployment config %#v" [Arg.deploymentFile df],
              Event.writeFile s.configPath b] }) := by
  simp [Save, hpath, hm, loggerDebug, fsWriteFile, hw]

theorem loadDefaults_nonempty (json : JSON) (s : fileSystemDeploymentConfigService σ)
    (df : DeploymentFile) (w : World σ Event) (hid : df.DirectorID ≠ []) :
    loadDefaults json s df w = (Outcome.returned (df, none), w) := by
  simp [loadDefaults, initDefaults, hid]

theorem Load_absent (json : JSON) (s : fileSystemDeploymentConfigService σ)
    (w : World σ Event) (s1 : σ)
    (hpath : s.configPath ≠ "")
    (hex : s.fs.FileExists s.configPath w.state = (false, s1)) :
    Load json s w =
      loadDefaults json s {}
        { state := s1,
          trace := w.trace ++
            [Event.logDebug s.logTag "Loading deployment config: %s" [Arg.str s.configPath],
              Event.fileExists s.configPath] } := by
  simp [Load, hpath, loggerDebug, fsFileExists, hex]

theorem Load_read_error (json : JSON) (s : fileSystemDeploymentConfigService σ)
    (w : World σ Event) (s1 : σ) (b : Bytes) (e : Error Arg) (s2 : σ)
    (hpath : s.configPath ≠ "")
    (hex : s.fs.FileExists s.configPath w.state = (true, s1))
    (hrd : s.fs.ReadFile s.configPath s1 = ((b, some e), s2)) :
    Load json s w =
      (Outcome.returned
        (({} : DeploymentFile),
          some (bosherr.WrapErrorf e "Reading deployment config file '%s'"
            [Arg.str s.configPath])),
        { state := s2,
          trace := w.trace ++
            [Event.logDebug s.logTag "Loading deployment config: %s" [Arg.str s.configPath],
              Event.fileExists s.configPath, Event.readFile s.configPath] }) := by
  simp [Load, hpath, loggerDebug, fsFileExists, hex, fsReadFile, hrd]

theorem Load_decode_error (json : JSON) (s : fileSystemDeploymentConfigService σ)
    (w : World σ Event) (s1 : σ) (b : Bytes) (s2 : σ) (v : DeploymentFile) (e : Error Arg)
    (hpath : s.configPath ≠ "")
    (hex : s.fs.FileExists s.configPath w.state = (true, s1))
    (hrd : s.fs.ReadFile s.configPath s1 = ((b, none), s2))
    (hdec : json.Unmarshal b {} = (v, some e)) :
    Load json s w =
      (Outcome.returned
        (({} : DeploymentFile),
          some (bosherr.WrapErrorf e "Unmarshalling deployment config file '%s'"
            [Arg.str s.configPath])),
        { state := s2,
          trace := w.trace ++
            [Event.logDebug s.logTag "Loading deployment config: %s" [Arg.str s.configPath],
              Event.fileExists s.configPath, Event.readFile s.configPath,
              Event.logDebug s.logTag "Deployment File Contents %#s" [Arg.bytes b]] }) := by
  simp [Load, hpath, loggerDebug, fsFileExists, hex, fsReadFile, hrd, hdec]

theorem Load_decoded (json : JSON) (s : fileSystemDeploymentConfigService σ)
    (w : World σ Event) (s1 : σ) (b : Bytes) (s2 : σ) (df : DeploymentFile)
    (hpath : s.configPath ≠ "")
    (hex : s.fs.FileExists s.configPath w.state = (true, s1))
    (hrd : s.fs.ReadFile s.configPath s1 = ((b, none), s2))
    (hdec : json.Unmarshal b {} = (df, none)) :
    Load json s w =
      loadDefaults json s df
        { state := s2,
          trace := w.trace ++
            [Event.logDebug s.logTag "Loading deployment config: %s" [Arg.str s.configPath],
              Event.fileExists s.configPath, Event.readFile s.configPath,
              Event.logDebug s.logTag "Deployment File Contents %#s" [Arg.bytes b]] } := by
  simp [Load, hpath, loggerDebug, fsFileExists, hex, fsReadFile, hrd, hdec]

theorem loadDefaults_generate_error (json : JSON) (s : fileSystemDeploymentConfigService σ)
    (df : DeploymentFile) (w : World σ Event) (u : GoString) (e : Error Arg) (s1 : σ)
    (hid : df.DirectorID = [])
    (hgen : s.uuidGenerator.Generate w.state = ((u, some e), s1)) :
    loadDefaults json s df w =
      (Outcome.returned
        (({} : DeploymentFile),
          some (bosherr.WrapErrorf (bosherr.WrapError e "Generating DirectorID" [])
            "Initializing deployment config defaults" [])),
        { state := s1, trace := w.trace ++ [Event.generate] }) := by
  simp [loadDefaults, initDefaults, hid, uuidGenerate, hgen]

theorem loadDefaults_marshal_error (json : JSON) (s : fileSystemDeploymentConfigService σ)
    (df : DeploymentFile) (w : World σ Event) (u : GoString) (s1 : σ) (b : Bytes)
    (e : Error Arg)
    (hpath : s.configPath ≠ "")
    (hid : df.DirectorID = [])
    (hgen : s.uuidGenerator.Generate w.state = ((u, none), s1))
    (hm : json.MarshalIndent { df with DirectorID := u } "" "    " = (b, some e)) :
    loadDefaults json s df w =
      (Outcome.returned
        (({} : DeploymentFile),
          some (bosherr.WrapErrorf
            (bosherr.WrapError
              (bosherr.WrapError e "Marshalling deployment config into JSON" [])
              "Saving deployment config" [])
            "Initializing deployment config defaults" [])),
        { state := s1,
          trace := w.trace ++
            [Event.generate,
              Event.logDebug s.logTag "Saving deployment config %#v"
                [Arg.deploymentFile { df with DirectorID := u }]] }) := by
  simp [loadDefaults, initDefaults, hid, uuidGenerate, hgen,
    Save_marshal_error json s _ _ b e hpath hm]

theorem loadDefaults_write_error (json : JSON) (s : fileSystemDeploymentConfigService σ)
    (df : DeploymentFile) (w : World σ Event) (u : GoString) (s1 : σ) (b : Bytes)
    (e : Error Arg) (s2 : σ)
    (hpath : s.configPath ≠ "")
    (hid : df.DirectorID = [])
    (hgen : s.uuidGenerator.Generate w.state = ((u, none), s1))
    (hm : json.MarshalIndent { df with DirectorID := u } "" "    " = (b, none))
    (hw : s.fs.WriteFile s.configPath b s1 = (some e, s2)) :
    loadDefaults json s df w =
      (Outcome.returned
        (({} : DeploymentFile),
          some (bosherr.WrapErrorf
            (bosherr.WrapError
              (bosherr.WrapErrorf e "Writing deployment config file '%s'"
                [Arg.str s.configPath])
              "Saving deployment config" [])
            "Initializing deployment config defaults" [])),
        { state := s2,
          trace := w.trace ++
            [Event.generate,
              Event.logDebug s.logTag "Saving deployment config %#v"
                [Arg.deploymentFile { df with DirectorID := u }],
              Event.writeFile s.configPath b] }) := by
  simp [loadDefaults, initDefaults, hid, uuidGenerate, hgen,
    Save_write_error json s _ { state := s1, trace := w.trace ++ [Event.generate] } b e s2
      hpath hm hw]

theorem loadDefaults_saved (json : JSON) (s : fileSystemDeploymentConfigService σ)
    (df : DeploymentFile) (w : World σ Event) (u : GoString) (s1 : σ) (b : Bytes) (s2 : σ)
    (hpath : s.configPath ≠ "")
    (hid : df.DirectorID = [])
    (hgen : s.uuidGenerator.Generate w.state = ((u, none), s1))
    (hm : json.MarshalIndent { df with DirectorID := u } "" "    " = (b, none))
    (hw : s.fs.WriteFile s.configPath b s1 = (none, s2)) :
    loadDefaults json s df w =
      (Outcome.returned (({ df with DirectorID := u } : DeploymentFile), none),
        { state := s2,
          trace := w.trace ++
            [Event.generate,
              Event.logDebug s.logTag "Saving deployment config %#v"
                [Arg.deploymentFile { df with DirectorID := u }],
              Event.writeFile s.configPath b] }) := by
  simp [loadDefaults, initDefaults, hid, uuidGenerate, hgen,
    Save_ok json s _ { state := s1, trace := w.trace ++ [Event.generate] } b s2 hpath hm hw]

theorem newCalls_append (w : World σ Event) (st : σ) (evs : List Event) :
    newCalls w { state := st, trace := w.trace ++ evs } = evs := by
  simp [newCalls]

/-- C5. Let the config path be set, the backing file exist (`FileExists` reports
it) with content `b` (what `ReadFile` returns), and `b` decode to a
`DeploymentFile` with a non-empty DirectorID `d`.  Then `Load` returns that
`DeploymentFile` and no error; the calls it makes are a log entry, `FileExists`,
`ReadFile` and a log entry: no call of the UUID generator and no write; and on
every file system that keeps its contract the content of every file is the same
after `Load` as before. -/
theorem load_keeps_directorID (json : JSON) (s : fileSystemDeploymentConfigService σ)
    (w : World σ Event) (b : Bytes) (df : DeploymentFile) (d : GoString) (s1 s2 : σ)
    (hpath : s.configPath ≠ "")
    (hd : d ≠ [])
    (hex : s.fs.FileExists s.configPath w.state = (true, s1))
    (hrd : s.fs.ReadFile s.configPath s1 = ((b, none), s2))
    (hdec : json.Unmarshal b {} = (df, none))
    (hid : df.DirectorID = d) :
    Load json s w =
      (Outcome.returned (df, none),
        { state := s2,
          trace := w.trace ++
            [Event.logDebug s.logTag "Loading deployment config: %s" [Arg.str s.configPath],
              Event.fileExists s.configPath, Event.readFile s.configPath,
              Event.logDebug s.logTag "Deployment File Contents %#s" [Arg.bytes b]] }) ∧
    (∃ df1, (Load json s w).1 = Outcome.returned (df1, none) ∧ df1.DirectorID = d) ∧
    Event.generate ∉ newCalls w (Load json s w).2 ∧
    (∀ path c, Event.writeFile path c ∉ newCalls w (Load json s w).2) ∧
    (∀ content, LawfulFileSystem s.fs content →
      content (Load json s w).2.state = content w.state) := by
  have h := Load_decoded json s w s1 b s2 df hpath hex hrd hdec
  rw [loadDefaults_nonempty json s df _ (by rw [hid]; exact hd)] at h
  refine ⟨h, ⟨df, by rw [h], hid⟩, ?_, ?_, ?_⟩
  · rw [h, newCalls_append]; simp
  · intro path c; rw [h, newCalls_append]; simp
  · intro content hfs
    rw [h]
    have e1 := hfs.fileExists_frame s.configPath w.state
    have e2 := hfs.readFile_frame s.configPath s1
    rw [hex] at e1
    rw [hrd] at e2
    exact e2.trans e1

/-- Witness for C5: the file of the test double holds the document of
`"abc-123"`. -/
theorem load_keeps_directorID_witness :
    (Load fakeJSON fakeService
      (fakeWorld { files := [("/deployment.json", (fakeDocument "abc-123"))] })).1 =
      Outcome.returned (⟨ascii "abc-123"⟩, none) := by
  have h := (load_keeps_directorID fakeJSON fakeService
    (fakeWorld { files := [("/deployment.json", (fakeDocument "abc-123"))] })
    (fakeDocument "abc-123") ⟨ascii "abc-123"⟩ (ascii "abc-123")
    { files := [("/deployment.json", (fakeDocument "abc-123"))] }
    { files := [("/deployment.json", (fakeDocument "abc-123"))] }
    (by decide) (by decide) (by decide) (by decide) (by decide) rfl).1
  rw [h]

/-- C8. Let the config path be set, the backing file exist (`FileExists` reports
it) with content `b` (what `ReadFile` returns), and decoding `b` fail with the
error `e`.  Then `Load` returns (it does not panic) the zero `DeploymentFile` and
the decode error that wraps `e` and the path; the calls it makes are a log entry,
`FileExists`, `ReadFile` and a log entry: no call of the UUID generator and no
write. -/
theorem load_malformed_document (json : JSON) (s : fileSystemDeploymentConfigService σ)
    (w : World σ Event) (b : Bytes) (v : DeploymentFile) (e : Error Arg) (s1 s2 : σ)
    (hpath : s.configPath ≠ "")
    (hex : s.fs.FileExists s.configPath w.state = (true, s1))
    (hrd : s.fs.ReadFile s.configPath s1 = ((b, none), s2))
    (hdec : json.Unmarshal b {} = (v, some e)) :
    Load json s w =
      (Outcome.returned
        (({} : DeploymentFile),
          some (bosherr.WrapErrorf e "Unmarshalling deployment config file '%s'"
            [Arg.str s.configPath])),
        { state := s2,
          trace := w.trace ++
            [Event.logDebug s.logTag "Loading deployment config: %s" [Arg.str s.configPath],
              Event.fileExists s.configPath, Event.readFile s.configPath,
              Event.logDebug s.logTag "Deployment File Contents %#s" [Arg.bytes b]] }) ∧
    Event.generate ∉ newCalls w (Load json s w).2 ∧
    (∀ path c, Event.writeFile path c ∉ newCalls w (Load json s w).2) := by
  have h := Load_decode_error json s w s1 b s2 v e hpath hex hrd hdec
  refine ⟨h, ?_, ?_⟩
  · rw [h, newCalls_append]; simp
  · intro path c; rw [h, newCalls_append]; simp

/-- Witness for C8: the file of the test double holds a byte that is no
document. -/
theorem load_malformed_document_witness :
    (Load fakeJSON fakeService
      (fakeWorld { files := [("/deployment.json", [97, 200])] })).1 =
      Outcome.returned
        (⟨[]⟩,
          some (bosherr.WrapErrorf (Error.external "invalid character")
            "Unmarshalling deployment config file '%s'" [Arg.str "/deployment.json"])) := by
  have h := (load_malformed_document fakeJSON fakeService
    (fakeWorld { files := [("/deployment.json", [97, 200])] })
    [97, 200] {} (Error.external "invalid character")
    { files := [("/deployment.json", [97, 200])] }
    { files := [("/deployment.json", [97, 200])] }
    (by decide) (by decide) (by decide) (by decide)).1
  rw [h]
  rfl

/-- When the defaulting step of `Load` ends in an error, the value is the zero
`DeploymentFile` and the error is a generation failure, before which nothing was
written, or a failure of `Save`. -/
theorem loadDefaults_error (json : JSON) (s : fileSystemDeploymentConfigService σ)
    (df0 : DeploymentFile) (w : World σ Event) (df : DeploymentFile) (e : Error Arg)
    (w1 : World σ Event)
    (hpath : s.configPath ≠ "")
    (h : loadDefaults json s df0 w = (Outcome.returned (df, some e), w1)) :
    df = {} ∧
    ((∃ c, e = bosherr.WrapErrorf (bosherr.WrapError c "Generating DirectorID" [])
        "Initializing deployment config defaults" [] ∧
        w1.trace = w.trace ++ [Event.generate]) ∨
      (∃ c, e = bosherr.WrapErrorf (bosherr.WrapError c "Saving deployment config" [])
        "Initializing deployment config defaults" [])) := by
  by_cases hid : df0.DirectorID = []
  · rcases hg : s.uuidGenerator.Generate w.state with ⟨⟨u, gerr⟩, s1⟩
    cases gerr with
    | some c =>
      rw [loadDefaults_generate_error json s df0 w u c s1 hid hg] at h
      simp only [Prod.mk.injEq, Outcome.returned.injEq, Option.some.injEq] at h
      obtain ⟨⟨h1, h2⟩, h3⟩ := h
      exact ⟨h1.symm, Or.inl ⟨c, h2.symm, by rw [← h3]⟩⟩
    | none =>
      rcases hm : json.MarshalIndent { df0 with DirectorID := u } "" "    " with ⟨b, merr⟩
      cases merr with
      | some c =>
        rw [loadDefaults_marshal_error json s df0 w u s1 b c hpath hid hg hm] at h
        simp only [Prod.mk.injEq, Outcome.returned.injEq, Option.some.injEq] at h
        obtain ⟨⟨h1, h2⟩, -⟩ := h
        exact ⟨h1.symm, Or.inr ⟨_, h2.symm⟩⟩
      | none =>
        rcases hw : s.fs.WriteFile s.configPath b s1 with ⟨werr, s2⟩
        cases werr with
        | some c =>
          rw [loadDefaults_write_error json s df0 w u s1 b c s2 hpath hid hg hm hw] at h
          simp only [Prod.mk.injEq, Outcome.returned.injEq, Option.some.injEq] at h
          obtain ⟨⟨h1, h2⟩, -⟩ := h
          exact ⟨h1.symm, Or.inr ⟨_, h2.symm⟩⟩
        | none =>
          rw [loadDefaults_saved json s df0 w u s1 b s2 hpath hid hg hm hw] at h
          simp at h
  · rw [loadDefaults_nonempty json s df0 w hid] at h
    simp at h

/-- C10. Whenever `Load` returns a non-nil error, the `DeploymentFile` it returns
is the zero value, and the error is one of four: a read failure, a decode
failure, a generation failure, each with no write among the calls `Load` made,
or a failure of `Save` while persisting the generated DirectorID. -/
theorem load_error_returns_zero_value (json : JSON)
    (s : fileSystemDeploymentConfigService σ) (w : World σ Event) (df : DeploymentFile)
    (e : Error Arg) (w1 : World σ Event)
    (h : Load json s w = (Outcome.returned (df, some e), w1)) :
    df = {} ∧ df.DirectorID = [] ∧
    ((∃ c, e = bosherr.WrapErrorf c "Reading deployment config file '%s'"
        [Arg.str s.configPath] ∧
        ∀ path b, Event.writeFile path b ∉ newCalls w w1) ∨
      (∃ c, e = bosherr.WrapErrorf c "Unmarshalling deployment config file '%s'"
        [Arg.str s.configPath] ∧
        ∀ path b, Event.writeFile path b ∉ newCalls w w1) ∨
      (∃ c, e = bosherr.WrapErrorf (bosherr.WrapError c "Generating DirectorID" [])
        "Initializing deployment config defaults" [] ∧
        ∀ path b, Event.writeFile path b ∉ newCalls w w1) ∨
      (∃ c, e = bosherr.WrapErrorf (bosherr.WrapError c "Saving deployment config" [])
        "Initializing deployment config defaults" [])) := by
  have hpath : s.configPath ≠ "" := by
    intro hp
    simp [Load, hp] at h
  suffices hmain : df = {} ∧
      ((∃ c, e = bosherr.WrapErrorf c "Reading deployment config file '%s'"
          [Arg.str s.configPath] ∧
          ∀ path b, Event.writeFile path b ∉ newCalls w w1) ∨
        (∃ c, e = bosherr.WrapErrorf c "Unmarshalling deployment config file '%s'"
          [Arg.str s.configPath] ∧
          ∀ path b, Event.writeFile path b ∉ newCalls w w1) ∨
        (∃ c, e = bosherr.WrapErrorf (bosherr.WrapError c "Generating DirectorID" [])
          "Initializing deployment config defaults" [] ∧
          ∀ path b, Event.writeFile path b ∉ newCalls w w1) ∨
        (∃ c, e = bosherr.WrapErrorf (bosherr.WrapError c "Saving deployment config" [])
          "Initializing deployment config defaults" [])) by
    exact ⟨hmain.1, by rw [hmain.1], hmain.2⟩
  rcases hex : s.fs.FileExists s.configPath w.state with ⟨ex, s1⟩
  cases ex with
  | false =>
    rw [Load_absent json s w s1 hpath hex] at h
    obtain ⟨hz, hcase⟩ := loadDefaults_error json s _ _ df e w1 hpath h
    refine ⟨hz, ?_⟩
    rcases hcase with ⟨c, hc, ht⟩ | hsave
    · refine Or.inr (Or.inr (Or.inl ⟨c, hc, ?_⟩))
      intro path b
      simp [newCalls, ht]
    · exact Or.inr (Or.inr (Or.inr hsave))
  | true =>
    rcases hrd : s.fs.ReadFile s.configPath s1 with ⟨⟨b, rerr⟩, s2⟩
    cases rerr with
    | some c =>
      rw [Load_read_error json s w s1 b c s2 hpath hex hrd] at h
      simp only [Prod.mk.injEq, Outcome.returned.injEq, Option.some.injEq] at h
      obtain ⟨⟨h1, h2⟩, h3⟩ := h
      refine ⟨h1.symm, Or.inl ⟨c, h2.symm, ?_⟩⟩
      intro path b
      simp [newCalls, ← h3]
    | none =>
      rcases hdec : json.Unmarshal b {} with ⟨v, derr⟩
      cases derr with
      | some c =>
        rw [Load_decode_error json s w s1 b s2 v c hpath hex hrd hdec] at h
        simp only [Prod.mk.injEq, Outcome.returned.injEq, Option.some.injEq] at h
        obtain ⟨⟨h1, h2⟩, h3⟩ := h
        refine ⟨h1.symm, Or.inr (Or.inl ⟨c, h2.symm, ?_⟩)⟩
        intro path b
        simp [newCalls, ← h3]
      | none =>
        rw [Load_decoded json s w s1 b s2 v hpath hex hrd hdec] at h
        obtain ⟨hz, hcase⟩ := loadDefaults_error json s _ _ df e w1 hpath h
        refine ⟨hz, ?_⟩
        rcases hcase with ⟨c, hc, ht⟩ | hsave
        · refine Or.inr (Or.inr (Or.inl ⟨c, hc, ?_⟩))
          intro path b
          simp [newCalls, ht]
        · exact Or.inr (Or.inr (Or.inr hsave))

/-- Witness for C10: the generator of the test double has no identifier left, so
`Load` fails and returns the zero value. -/
theorem load_error_returns_zero_value_witness :
    (Load fakeJSON fakeService (fakeWorld {})).1 =
      Outcome.returned
        (⟨[]⟩,
          some (bosherr.WrapErrorf
            (bosherr.WrapError (Error.external "no identifier left") "Generating DirectorID" [])
            "Initializing deployment config defaults" [])) ∧
    (⟨[]⟩ : DeploymentFile).DirectorID = [] :=
  ⟨by decide,
    (load_error_returns_zero_value fakeJSON fakeService (fakeWorld {}) ⟨[]⟩
      (bosherr.WrapErrorf
        (bosherr.WrapError (Error.external "no identifier left") "Generating DirectorID" [])
        "Initializing deployment config defaults" [])
      { state := {},
        trace :=
          [Event.logDebug "config" "Loading deployment config: %s"
            [Arg.str "/deployment.json"],
            Event.fileExists "/deployment.json", Event.generate] }
      (by decide)).2.1⟩

theorem persistedDirectorID_eq_some (json : JSON) (content : σ → String → Option Bytes)
    (path : String) (st : σ) (d : GoString) :
    persistedDirectorID json content path st = some d ↔
      ∃ b df, content st path = some b ∧ json.Unmarshal b {} = (df, none) ∧
        df.DirectorID = d := by
  unfold persistedDirectorID
  cases hc : content st path with
  | none => simp
  | some b =>
    rcases hu : json.Unmarshal b {} with ⟨df, err⟩
    cases err with
    | none => simp [hu]
    | some e => simp [hu]

theorem persistedDirectorID_congr (json : JSON) (content : σ → String → Option Bytes)
    (path : String) (st st1 : σ) (h : content st1 path = content st path) :
    persistedDirectorID json content path st1 = persistedDirectorID json content path st := by
  unfold persistedDirectorID
  rw [h]

/-- C4, as amended.  Let the config path be set and the backing file not exist
(`FileExists` reports so).  If the UUID generator succeeds with a non-empty
identifier `u`, encoding the defaulted `DeploymentFile` and writing the bytes to
the backing file succeed, and the written bytes decode to the `DeploymentFile`
that was encoded, then `Load` returns DirectorID `u` and no error, after the
calls: log entry, `FileExists`, `Generate`, log entry of `Save`, `WriteFile`; and
on a file system that keeps its contract the backing file then holds the written
bytes, so that the persisted document has that same DirectorID.  If the generator
fails, or the encoding or the write of `Save` fails, `Load` returns the zero
`DeploymentFile` and the error of that failure. -/
theorem load_fresh_persists_directorID (json : JSON)
    (s : fileSystemDeploymentConfigService σ) (w : World σ Event) (s1 : σ)
    (hpath : s.configPath ≠ "")
    (hex : s.fs.FileExists s.configPath w.state = (false, s1)) :
    (∀ (u : GoString) (b : Bytes) (s2 s3 : σ) (content : σ → String → Option Bytes),
      s.uuidGenerator.Generate s1 = ((u, none), s2) →
      u ≠ [] →
      json.MarshalIndent ⟨u⟩ "" "    " = (b, none) →
      s.fs.WriteFile s.configPath b s2 = (none, s3) →
      json.Unmarshal b {} = (⟨u⟩, none) →
      LawfulFileSystem s.fs content →
      Load json s w =
        (Outcome.returned (⟨u⟩, none),
          { state := s3,
            trace := w.trace ++
              [Event.logDebug s.logTag "Loading deployment config: %s"
                [Arg.str s.configPath],
                Event.fileExists s.configPath, Event.generate,
                Event.logDebug s.logTag "Saving deployment config %#v"
                  [Arg.deploymentFile ⟨u⟩],
                Event.writeFile s.configPath b] }) ∧
      (∃ df, (Load json s w).1 = Outcome.returned (df, none) ∧ df.DirectorID ≠ [] ∧
        content (Load json s w).2.state s.configPath = some b ∧
        persistedDirectorID json content s.configPath (Load json s w).2.state =
          some df.DirectorID)) ∧
    (∀ (u : GoString) (e : Error Arg) (s2 : σ),
      s.uuidGenerator.Generate s1 = ((u, some e), s2) →
      Load json s w =
        (Outcome.returned
          (({} : DeploymentFile),
            some (bosherr.WrapErrorf (bosherr.WrapError e "Generating DirectorID" [])
              "Initializing deployment config defaults" [])),
          { state := s2,
            trace := w.trace ++
              [Event.logDebug s.logTag "Loading deployment config: %s"
                [Arg.str s.configPath],
                Event.fileExists s.configPath, Event.generate] })) ∧
    (∀ (u : GoString) (s2 : σ) (b : Bytes) (e : Error Arg),
      s.uuidGenerator.Generate s1 = ((u, none), s2) →
      json.MarshalIndent ⟨u⟩ "" "    " = (b, some e) →
      Load json s w =
        (Outcome.returned
          (({} : DeploymentFile),
            some (bosherr.WrapErrorf
              (bosherr.WrapError
                (bosherr.WrapError e "Marshalling deployment config into JSON" [])
                "Saving deployment config" [])
              "Initializing deployment config defaults" [])),
          { state := s2,
            trace := w.trace ++
              [Event.logDebug s.logTag "Loading deployment config: %s"
                [Arg.str s.configPath],
                Event.fileExists s.configPath, Event.generate,
                Event.logDebug s.logTag "Saving deployment config %#v"
                  [Arg.deploymentFile ⟨u⟩]] })) ∧
    (∀ (u : GoString) (s2 : σ) (b : Bytes) (e : Error Arg) (s3 : σ),
      s.uuidGenerator.Generate s1 = ((u, none), s2) →
      json.MarshalIndent ⟨u⟩ "" "    " = (b, none) →
      s.fs.WriteFile s.configPath b s2 = (some e, s3) →
      Load json s w =
        (Outcome.returned
          (({} : DeploymentFile),
            some (bosherr.WrapErrorf
              (bosherr.WrapError
                (bosherr.WrapErrorf e "Writing deployment config file '%s'"
                  [Arg.str s.configPath])
                "Saving deployment config" [])
              "Initializing deployment config defaults" [])),
          { state := s3,
            trace := w.trace ++
              [Event.logDebug s.logTag "Loading deployment config: %s"
                [Arg.str s.configPath],
                Event.fileExists s.configPath, Event.generate,
                Event.logDebug s.logTag "Saving deployment config %#v"
                  [Arg.deploymentFile ⟨u⟩],
                Event.writeFile s.configPath b] })) := by
  refine ⟨?_, ?_, ?_, ?_⟩
  · intro u b s2 s3 content hgen hu hm hw hdec hfs
    have h : Load json s w =
        (Outcome.returned (⟨u⟩, none),
          { state := s3,
            trace := w.trace ++
              [Event.logDebug s.logTag "Loading deployment config: %s"
                [Arg.str s.configPath],
                Event.fileExists s.configPath, Event.generate,
                Event.logDebug s.logTag "Saving deployment config %#v"
                  [Arg.deploymentFile ⟨u⟩],
                Event.writeFile s.configPath b] }) := by
      rw [Load_absent json s w s1 hpath hex,
        loadDefaults_saved json s {} _ u s2 b s3 hpath rfl hgen hm hw]
      simp
    have hc : content s3 s.configPath = some b := by
      have := hfs.writeFile_ok s.configPath b s2
      rw [hw] at this
      exact this rfl
    refine ⟨h, ⟨u⟩, by rw [h], hu, by rw [h]; exact hc, ?_⟩
    rw [h]
    exact (persistedDirectorID_eq_some json content s.configPath s3 u).2
      ⟨b, ⟨u⟩, hc, hdec, rfl⟩
  · intro u e s2 hgen
    rw [Load_absent json s w s1 hpath hex,
      loadDefaults_generate_error json s {} _ u e s2 rfl hgen]
    simp
  · intro u s2 b e hgen hm
    rw [Load_absent json s w s1 hpath hex,
      loadDefaults_marshal_error json s {} _ u s2 b e hpath rfl hgen hm]
    simp
  · intro u s2 b e s3 hgen hm hw
    rw [Load_absent json s w s1 hpath hex,
      loadDefaults_write_error json s {} _ u s2 b e s3 hpath rfl hgen hm hw]
    simp

theorem fakeFS_lawful : LawfulFileSystem fakeFS fakeContent where
  fileExists_eq := fun _ _ => rfl
  fileExists_frame := fun _ _ => rfl
  readFile_frame := by
    intro path st
    unfold fakeFS
    simp only
    cases st.readError <;> simp only
    cases fakeContent st path <;> rfl
  readFile_ok := by
    intro path st
    unfold fakeFS
    simp only
    cases st.readError <;> simp only
    · cases h : fakeContent st path <;> simp
    · simp
  writeFile_ok := by
    intro path b st
    unfold fakeFS
    simp only
    cases st.writeError <;> simp [fakeContent, List.lookup]

/-- Witness for C4 as amended: a fresh load on the test doubles. -/
theorem load_fresh_persists_directorID_witness :
    Load fakeJSON fakeService (fakeWorld { uuids := [ascii "abc-123"] }) =
      (Outcome.returned (⟨ascii "abc-123"⟩, none),
        { state := { files := [("/deployment.json", (fakeDocument "abc-123"))] },
          trace :=
            [Event.logDebug "config" "Loading deployment config: %s"
              [Arg.str "/deployment.json"],
              Event.fileExists "/deployment.json", Event.generate,
              Event.logDebug "config" "Saving deployment config %#v"
                [Arg.deploymentFile ⟨ascii "abc-123"⟩],
              Event.writeFile "/deployment.json" (fakeDocument "abc-123")] }) ∧
    persistedDirectorID fakeJSON fakeContent "/deployment.json"
      (Load fakeJSON fakeService (fakeWorld { uuids := [ascii "abc-123"] })).2.state =
      some (ascii "abc-123") :=
  ⟨((load_fresh_persists_directorID fakeJSON fakeService
      (fakeWorld { uuids := [ascii "abc-123"] }) { uuids := [ascii "abc-123"] }
      (by decide) (by decide)).1
      (ascii "abc-123") (fakeDocument "abc-123") {}
      { files := [("/deployment.json", (fakeDocument "abc-123"))] } fakeContent
      (by decide) (by decide) (by decide) (by decide) (by decide) fakeFS_lawful).1,
    by decide⟩

/-- Counterexample to C4 as stated.  The config path is set and the backing file
does not exist, and yet: (1) when the UUID generator fails, `Load` returns the
zero value and an error; (2) when the write of `Save` fails, `Load` returns the
zero value and an error; (3) when the generator succeeds with the empty string,
`Load` returns an empty DirectorID and no error; (4) when the generator succeeds
with the identifier `id-` followed by the byte `0xFF`, which is not valid UTF-8,
`Load` returns that identifier and no error, while the document written to the
backing file holds, and decodes to, `id-` followed by the replacement character
U+FFFD, another DirectorID. -/
theorem load_fresh_can_fail :
    fakeService.configPath ≠ "" ∧
    (fakeFS.FileExists fakeService.configPath ({} : FakeDisk)).1 = false ∧
    (Load fakeJSON fakeService (fakeWorld {})).1 =
      Outcome.returned
        (⟨[]⟩,
          some (bosherr.WrapErrorf
            (bosherr.WrapError (Error.external "no identifier left") "Generating DirectorID" [])
            "Initializing deployment config defaults" [])) ∧
    (Load fakeJSON fakeService
      (fakeWorld
        { uuids := [ascii "abc-123"], writeError := some (Error.external "disk full") })).1 =
      Outcome.returned
        (⟨[]⟩,
          some (bosherr.WrapErrorf
            (bosherr.WrapError
              (bosherr.WrapErrorf (Error.external "disk full")
                "Writing deployment config file '%s'" [Arg.str "/deployment.json"])
              "Saving deployment config" [])
            "Initializing deployment config defaults" [])) ∧
    (Load fakeJSON fakeService (fakeWorld { uuids := [[]] })).1 =
      Outcome.returned (⟨[]⟩, none) ∧
    (Load fakeJSON fakeService (fakeWorld { uuids := [[0x69, 0x64, 0x2D, 0xFF]] })).1 =
      Outcome.returned (⟨[0x69, 0x64, 0x2D, 0xFF]⟩, none) ∧
    fakeContent
      (Load fakeJSON fakeService (fakeWorld { uuids := [[0x69, 0x64, 0x2D, 0xFF]] })).2.state
      "/deployment.json" = some (fakeDocument "id-\\ufffd") ∧
    persistedDirectorID fakeJSON fakeContent "/deployment.json"
      (Load fakeJSON fakeService (fakeWorld { uuids := [[0x69, 0x64, 0x2D, 0xFF]] })).2.state =
      some [0x69, 0x64, 0x2D, 0xEF, 0xBF, 0xBD] := by
  decide

/-- Counterexample to C6 as stated.  The DirectorID `id-` followed by the byte
`0xFF` is non-empty, the write of `Save` and the read of `Load` succeed, and yet
`Save` then `Load` does not return the value saved: `Save` writes the document
in which the byte `0xFF`, not valid UTF-8, has become the escape of the
replacement character U+FFFD, and `Load` returns, with no error, `id-` followed
by that character (the bytes `EF BF BD`). -/
theorem save_then_load_replaces_invalid_utf8 :
    (⟨[0x69, 0x64, 0x2D, 0xFF]⟩ : DeploymentFile).DirectorID ≠ [] ∧
    Save fakeJSON fakeService ⟨[0x69, 0x64, 0x2D, 0xFF]⟩ (fakeWorld {}) =
      (Outcome.returned none,
        { state := { files := [("/deployment.json", fakeDocument "id-\\ufffd")] },
          trace :=
            [Event.logDebug "config" "Saving deployment config %#v"
              [Arg.deploymentFile ⟨[0x69, 0x64, 0x2D, 0xFF]⟩],
              Event.writeFile "/deployment.json" (fakeDocument "id-\\ufffd")] }) ∧
    (Load fakeJSON fakeService
      (Save fakeJSON fakeService ⟨[0x69, 0x64, 0x2D, 0xFF]⟩ (fakeWorld {})).2).1 =
      Outcome.returned (⟨[0x69, 0x64, 0x2D, 0xEF, 0xBF, 0xBD]⟩, none) ∧
    (⟨[0x69, 0x64, 0x2D, 0xEF, 0xBF, 0xBD]⟩ : DeploymentFile) ≠ ⟨[0x69, 0x64, 0x2D, 0xFF]⟩ := by
  decide

/-- C6, as amended.  Let the config path be set and `df` have a non-empty
DirectorID, and let the indented JSON that `Save` writes for `df` decode to `df`.
On a file system that keeps its contract, where the write of `Save` succeeds and
the read of `Load` succeeds, `Save df` returns no error, and `Load`, run next,
returns `df` and no error. -/
theorem save_then_load_roundtrip (json : JSON) (s : fileSystemDeploymentConfigService σ)
    (w : World σ Event) (df : DeploymentFile) (b c : Bytes) (ex : Bool) (s1 s2 s3 : σ)
    (content : σ → String → Option Bytes)
    (hpath : s.configPath ≠ "")
    (hid : df.DirectorID ≠ [])
    (hfs : LawfulFileSystem s.fs content)
    (hm : json.MarshalIndent df "" "    " = (b, none))
    (hdec : json.Unmarshal b {} = (df, none))
    (hw : s.fs.WriteFile s.configPath b w.state = (none, s1))
    (hex : s.fs.FileExists s.configPath s1 = (ex, s2))
    (hrd : s.fs.ReadFile s.configPath s2 = ((c, none), s3)) :
    (Save json s df w).1 = Outcome.returned none ∧
    (Load json s (Save json s df w).2).1 = Outcome.returned (df, none) := by
  have hsave := Save_ok json s df w b s1 hpath hm hw
  have hc1 : content s1 s.configPath = some b := by
    have := hfs.writeFile_ok s.configPath b w.state
    rw [hw] at this
    exact this rfl
  have hex1 : ex = true := by
    have := hfs.fileExists_eq s.configPath s1
    rw [hex, hc1] at this
    exact this
  have hc2 : content s2 s.configPath = some b := by
    have := hfs.fileExists_frame s.configPath s1
    rw [hex] at this
    rw [this]
    exact hc1
  have hcb : c = b := by
    have := hfs.readFile_ok s.configPath s2
    rw [hrd, hc2] at this
    exact (Option.some.inj (this rfl)).symm
  subst hex1
  subst hcb
  refine ⟨by rw [hsave], ?_⟩
  rw [hsave, Load_decoded json s _ s2 c s3 df hpath hex hrd hdec,
    loadDefaults_nonempty json s df _ hid]

/-- Witness for C6 as amended: `Save` then `Load` on the test doubles. -/
theorem save_then_load_roundtrip_witness :
    (Save fakeJSON fakeService ⟨ascii "abc-123"⟩ (fakeWorld {})).1 = Outcome.returned none ∧
    (Load fakeJSON fakeService (Save fakeJSON fakeService ⟨ascii "abc-123"⟩ (fakeWorld {})).2).1 =
      Outcome.returned (⟨ascii "abc-123"⟩, none) :=
  save_then_load_roundtrip fakeJSON fakeService (fakeWorld {}) ⟨ascii "abc-123"⟩
    (fakeDocument "abc-123") (fakeDocument "abc-123") true
    { files := [("/deployment.json", (fakeDocument "abc-123"))] }
    { files := [("/deployment.json", (fakeDocument "abc-123"))] }
    { files := [("/deployment.json", (fakeDocument "abc-123"))] } fakeContent
    (by decide) (by decide) fakeFS_lawful (by decide) (by decide) (by decide) (by decide)
    (by decide)

/-- `Load` leaves a persisted non-empty DirectorID as it is. -/
theorem Load_preserves_persisted (json : JSON) (s : fileSystemDeploymentConfigService σ)
    (w : World σ Event) (content : σ → String → Option Bytes) (d : GoString)
    (hfs : LawfulFileSystem s.fs content)
    (hd : d ≠ [])
    (hinv : persistedDirectorID json content s.configPath w.state = some d) :
    persistedDirectorID json content s.configPath (Load json s w).2.state = some d := by
  by_cases hpath : s.configPath = ""
  · simpa [Load, hpath] using hinv
  · obtain ⟨b0, df0, hc0, hdec0, hid0⟩ :=
      (persistedDirectorID_eq_some json content s.configPath w.state d).1 hinv
    rcases hex : s.fs.FileExists s.configPath w.state with ⟨ex, s1⟩
    have hex1 : ex = true := by
      have := hfs.fileExists_eq s.configPath w.state
      rw [hex, hc0] at this
      exact this
    subst hex1
    have hf1 : content s1 = content w.state := by
      have := hfs.fileExists_frame s.configPath w.state
      rw [hex] at this
      exact this
    rcases hrd : s.fs.ReadFile s.configPath s1 with ⟨⟨c, rerr⟩, s2⟩
    have hf2 : content s2 = content w.state := by
      have := hfs.readFile_frame s.configPath s1
      rw [hrd] at this
      rw [this]
      exact hf1
    rw [← hinv]
    apply persistedDirectorID_congr
    cases rerr with
    | some e =>
      rw [Load_read_error json s w s1 c e s2 hpath hex hrd]
      exact congrFun hf2 _
    | none =>
      have hcb : c = b0 := by
        have := hfs.readFile_ok s.configPath s1
        rw [hrd, hf1, hc0] at this
        exact (Option.some.inj (this rfl)).symm
      subst hcb
      rw [Load_decoded json s w s1 c s2 df0 hpath hex hrd hdec0,
        loadDefaults_nonempty json s df0 _ (by rw [hid0]; exact hd)]
      exact congrFun hf2 _

/-- `Save` of a document with the persisted DirectorID leaves a document with
that DirectorID, when a failed write leaves the file as it was. -/
theorem Save_preserves_persisted (json : JSON) (s : fileSystemDeploymentConfigService σ)
    (w : World σ Event) (content : σ → String → Option Bytes) (d : GoString)
    (df : DeploymentFile)
    (hfs : LawfulFileSystem s.fs content)
    (hatomic : ∀ b st, (s.fs.WriteFile s.configPath b st).1 ≠ none →
      content (s.fs.WriteFile s.configPath b st).2 s.configPath = content st s.configPath)
    (hcodec : ∀ v b, v.DirectorID = d → json.MarshalIndent v "" "    " = (b, none) →
      ∃ v1, json.Unmarshal b {} = (v1, none) ∧ v1.DirectorID = d)
    (hdf : df.DirectorID = d)
    (hinv : persistedDirectorID json content s.configPath w.state = some d) :
    persistedDirectorID json content s.configPath (Save json s df w).2.state = some d := by
  by_cases hpath : s.configPath = ""
  · simpa [Save, hpath] using hinv
  · rcases hm : json.MarshalIndent df "" "    " with ⟨b, merr⟩
    cases merr with
    | some e =>
      rw [Save_marshal_error json s df w b e hpath hm]
      exact hinv
    | none =>
      rcases hw : s.fs.WriteFile s.configPath b w.state with ⟨werr, s1⟩
      cases werr with
      | some e =>
        rw [Save_write_error json s df w b e s1 hpath hm hw, ← hinv]
        apply persistedDirectorID_congr
        have := hatomic b w.state
        rw [hw] at this
        exact this (by simp)
      | none =>
        rw [Save_ok json s df w b s1 hpath hm hw]
        obtain ⟨v1, hv1, hv1d⟩ := hcodec df b hdf hm
        have hc1 : content s1 s.configPath = some b := by
          have := hfs.writeFile_ok s.configPath b w.state
          rw [hw] at this
          exact this rfl
        exact (persistedDirectorID_eq_some json content s.configPath s1 d).2
          ⟨b, v1, hc1, hv1, hv1d⟩

theorem run_preserves_persisted (json : JSON) (s : fileSystemDeploymentConfigService σ)
    (content : σ → String → Option Bytes) (d : GoString)
    (hfs : LawfulFileSystem s.fs content)
    (hatomic : ∀ b st, (s.fs.WriteFile s.configPath b st).1 ≠ none →
      content (s.fs.WriteFile s.configPath b st).2 s.configPath = content st s.configPath)
    (hcodec : ∀ v b, v.DirectorID = d → json.MarshalIndent v "" "    " = (b, none) →
      ∃ v1, json.Unmarshal b {} = (v1, none) ∧ v1.DirectorID = d)
    (hd : d ≠ []) (ops : List Op) :
    ∀ w : World σ Event,
      (∀ df, Op.save df ∈ ops → df.DirectorID = d) →
      persistedDirectorID json content s.configPath w.state = some d →
      persistedDirectorID json content s.configPath (run json s w ops).state = some d := by
  induction ops with
  | nil => intro w _ hinv; exact hinv
  | cons op ops ih =>
    intro w hops hinv
    have htail : ∀ df, Op.save df ∈ ops → df.DirectorID = d :=
      fun df hmem => hops df (List.mem_cons_of_mem _ hmem)
    show persistedDirectorID json content s.configPath
      (run json s (step json s w op) ops).state = some d
    apply ih _ htail
    cases op with
    | load => exact Load_preserves_persisted json s w content d hfs hd hinv
    | save df =>
      exact Save_preserves_persisted json s w content d df hfs hatomic hcodec
        (hops df (List.mem_cons_self _ _)) hinv

/-- `Load` writes nothing when the persisted document has a non-empty
DirectorID. -/
theorem Load_no_write_when_persisted (json : JSON)
    (s : fileSystemDeploymentConfigService σ) (w : World σ Event)
    (content : σ → String → Option Bytes) (d : GoString)
    (hfs : LawfulFileSystem s.fs content)
    (hd : d ≠ [])
    (hinv : persistedDirectorID json content s.configPath w.state = some d) :
    ∀ path c, Event.writeFile path c ∉ newCalls w (Load json s w).2 := by
  intro path c
  by_cases hpath : s.configPath = ""
  · simp [Load, hpath, newCalls]
  · obtain ⟨b0, df0, hc0, hdec0, hid0⟩ :=
      (persistedDirectorID_eq_some json content s.configPath w.state d).1 hinv
    rcases hex : s.fs.FileExists s.configPath w.state with ⟨ex, s1⟩
    have hex1 : ex = true := by
      have := hfs.fileExists_eq s.configPath w.state
      rw [hex, hc0] at this
      exact this
    subst hex1
    have hf1 : content s1 = content w.state := by
      have := hfs.fileExists_frame s.configPath w.state
      rw [hex] at this
      exact this
    rcases hrd : s.fs.ReadFile s.configPath s1 with ⟨⟨c1, rerr⟩, s2⟩
    cases rerr with
    | some e =>
      rw [Load_read_error json s w s1 c1 e s2 hpath hex hrd, newCalls_append]
      simp
    | none =>
      have hcb : c1 = b0 := by
        have := hfs.readFile_ok s.configPath s1
        rw [hrd, hf1, hc0] at this
        exact (Option.some.inj (this rfl)).symm
      subst hcb
      rw [Load_decoded json s w s1 c1 s2 df0 hpath hex hrd hdec0,
        loadDefaults_nonempty json s df0 _ (by rw [hid0]; exact hd), newCalls_append]
      simp

/-- C7, as amended.  Take a file system that keeps its contract and whose failed
writes leave the backing file as it was, and a codec that decodes what it encoded
for documents with DirectorID `d`.  If the persisted document has the non-empty
DirectorID `d`, then over every sequence of `Load` and `Save` operations in which
every `Save` is given a document with DirectorID `d`, the persisted DirectorID is
`d` after every operation of the sequence; and a `Load` run on any world whose
persisted DirectorID is `d` performs no write. -/
theorem persisted_directorID_stable (json : JSON) (s : fileSystemDeploymentConfigService σ)
    (content : σ → String → Option Bytes) (d : GoString) (ops : List Op) (w : World σ Event)
    (hfs : LawfulFileSystem s.fs content)
    (hatomic : ∀ b st, (s.fs.WriteFile s.configPath b st).1 ≠ none →
      content (s.fs.WriteFile s.configPath b st).2 s.configPath = content st s.configPath)
    (hcodec : ∀ v b, v.DirectorID = d → json.MarshalIndent v "" "    " = (b, none) →
      ∃ v1, json.Unmarshal b {} = (v1, none) ∧ v1.DirectorID = d)
    (hd : d ≠ [])
    (hinit : persistedDirectorID json content s.configPath w.state = some d)
    (hops : ∀ df, Op.save df ∈ ops → df.DirectorID = d) :
    (∀ n, persistedDirectorID json content s.configPath
      (run json s w (ops.take n)).state = some d) ∧
    (∀ w1 : World σ Event,
      persistedDirectorID json content s.configPath w1.state = some d →
      ∀ path c, Event.writeFile path c ∉ newCalls w1 (Load json s w1).2) :=
  ⟨fun n => run_preserves_persisted json s content d hfs hatomic hcodec hd (ops.take n) w
      (fun df hmem => hops df (List.mem_of_mem_take hmem)) hinit,
    fun w1 h1 => Load_no_write_when_persisted json s w1 content d hfs hd h1⟩

theorem fakeFS_failed_write (path : String) (b : Bytes) (st : FakeDisk)
    (h : (fakeFS.WriteFile path b st).1 ≠ none) :
    fakeContent (fakeFS.WriteFile path b st).2 path = fakeContent st path := by
  unfold fakeFS at h ⊢
  simp only at h ⊢
  cases hwe : st.writeError with
  | none => simp [hwe] at h
  | some e => simp

theorem fakeJSON_roundtrip_abc (v : DeploymentFile) (b : Bytes)
    (hv : v.DirectorID = ascii "abc-123")
    (hm : fakeJSON.MarshalIndent v "" "    " = (b, none)) :
    ∃ v1, fakeJSON.Unmarshal b {} = (v1, none) ∧ v1.DirectorID = ascii "abc-123" := by
  cases v with
  | mk id =>
    simp only at hv
    subst hv
    have hb : fakeJSON.MarshalIndent ⟨ascii "abc-123"⟩ "" "    " =
        ((fakeDocument "abc-123"), none) := by decide
    rw [hb] at hm
    have hb2 : b = (fakeDocument "abc-123") := (Prod.mk.inj hm).1.symm
    subst hb2
    exact ⟨⟨ascii "abc-123"⟩, by decide, rfl⟩

/-- Witness for C7 as amended: a load, a save of the same DirectorID and a load,
on the test doubles. -/
theorem persisted_directorID_stable_witness :
    persistedDirectorID fakeJSON fakeContent "/deployment.json"
      (run fakeJSON fakeService
        (fakeWorld { files := [("/deployment.json", (fakeDocument "abc-123"))] })
        ([Op.load, Op.save ⟨ascii "abc-123"⟩, Op.load].take 3)).state = some (ascii "abc-123") :=
  (persisted_directorID_stable fakeJSON fakeService fakeContent (ascii "abc-123")
    [Op.load, Op.save ⟨ascii "abc-123"⟩, Op.load]
    (fakeWorld { files := [("/deployment.json", (fakeDocument "abc-123"))] })
    fakeFS_lawful (fun b st => fakeFS_failed_write "/deployment.json" b st)
    fakeJSON_roundtrip_abc (by decide) (by decide)
    (by
      intro df hmem
      simp only [List.mem_cons, List.mem_singleton, List.not_mem_nil, Op.save.injEq,
        or_false, false_or, reduceCtorEq] at hmem
      rw [hmem])).1 3

/-- Counterexample to C7 as stated.  After a first `Load` the persisted document
has the non-empty DirectorID `"director-1"`; a `Save` of a document with
DirectorID `"director-2"`, an operation of the service on the same config path,
replaces it: the persisted DirectorID is then `"director-2"`. -/
theorem save_replaces_persisted_directorID :
    persistedDirectorID fakeJSON fakeContent "/deployment.json"
      (run fakeJSON fakeService (fakeWorld { uuids := [ascii "director-1"] })
        [Op.load]).state = some (ascii "director-1") ∧
    persistedDirectorID fakeJSON fakeContent "/deployment.json"
      (run fakeJSON fakeService (fakeWorld { uuids := [ascii "director-1"] })
        [Op.load, Op.save ⟨ascii "director-2"⟩]).state = some (ascii "director-2") ∧
    (Save fakeJSON fakeService ⟨ascii "director-2"⟩
      (run fakeJSON fakeService (fakeWorld { uuids := [ascii "director-1"] }) [Op.load])).1 =
      Outcome.returned none := by
  decide

end config

end bosh
